import Mathlib

/-!
# Inventory batch submission engine — shallow embedding

A shallow embedding of the inventory counting controller (`main.py`): the
record store is modelled as explicit lists of records, each HTTP endpoint
becomes a pure function from a store and a request to a new store and a
response value.  Python truthiness of optional fields is modelled explicitly
(`optNatTruthy`, `optStrTruthy`), and nondeterministic token generation
(`secrets.token_hex`) is made explicit as a `freshToken` argument.
-/

namespace InventoryApp

/-- Python truthiness of an optional integer parameter (`if x:`); `None` and `0` are falsy. -/
def optNatTruthy : Option Nat → Bool
  | none => false
  | some n => n != 0

/-- Python truthiness of an optional string parameter (`if s:`); `None` and `""` are falsy. -/
def optStrTruthy : Option String → Bool
  | none => false
  | some s => s != ""

/-- Submission states (`inventory.submission.state`). -/
inductive SubState
  | draft
  | submitted
  | validated
  | cancelled
deriving DecidableEq, Repr

/-- Scan line states (`inventory.scan.line.state`). -/
inductive LineState
  | draft
  | submitted
  | validated
deriving DecidableEq, Repr

/-- Project states (`inventory.projects.state`). -/
inductive ProjState
  | not_started
  | in_progress
  | completed
deriving DecidableEq, Repr

/-- A product record (`product.product`), master data. -/
structure Product where
  id : Nat
  name : String
deriving DecidableEq, Repr

/-- A lot record (`stock.production.lot`); `product` models the related `product_id` record. -/
structure Lot where
  id : Nat
  name : String
  product : Product
deriving DecidableEq, Repr

/-- A sale person record (`sale.person`). -/
structure SalePerson where
  id : Nat
  name : String
  mobile_phone : String
  pin : String
  token_for_sale_person : Option String
  store_location : Option Nat
deriving DecidableEq, Repr

/-- A project record (`inventory.projects`). -/
structure Project where
  id : Nat
  name : String
  location_id : Option Nat
  state : ProjState
deriving DecidableEq, Repr

/-- A rack record (`stock.rack`). -/
structure Rack where
  id : Nat
  name : String
  store_location_id : Nat
  active : Bool
  note : String
deriving DecidableEq, Repr

/-- A submission record (`inventory.submission`).  `validation_datetime` is a
timestamp (`0` when not validated); `project_location_id` is the stored related
field used by the re-inventory search domain. -/
structure Submission where
  id : Nat
  name : String
  project_id : Nat
  project_location_id : Option Nat
  sale_person_id : Nat
  product_id : Option Nat
  rack_id : Option Nat
  previous_submission_id : Option Nat
  notes : String
  state : SubState
  validation_datetime : Nat
deriving DecidableEq, Repr

/-- A scan line record (`inventory.scan.line`).  Quantities are modelled as
integers (only equality and sign of `scanned_qty` are at stake in the claims). -/
structure ScanLine where
  id : Nat
  submission_id : Nat
  project_id : Nat
  product_id : Nat
  lot_id : Nat
  lot_name : Option String
  scanned_qty : Int
  sale_person_id : Nat
  rack_id : Option Nat
  notes : String
  state : LineState
deriving DecidableEq, Repr

/-- A stock ledger entry (`stock_quant` row). -/
structure Quant where
  product_id : Nat
  lot_id : Nat
  location_id : Nat
  quantity : Int
deriving DecidableEq, Repr

/-- The record store: all persisted entities plus a fresh-id counter standing
for the database sequences. -/
structure Store where
  sale_persons : List SalePerson
  projects : List Project
  lots : List Lot
  racks : List Rack
  locations : List Nat
  quants : List Quant
  submissions : List Submission
  scan_lines : List ScanLine
  next_id : Nat
deriving DecidableEq, Repr

/-! ## Record lookups (`browse` / `search(..., limit=1)`) -/

/-- `request.env['stock.production.lot'].browse(id)` followed by `.exists()`. -/
def findLotById (s : Store) (i : Nat) : Option Lot :=
  s.lots.find? (fun l => l.id == i)

/-- `search([('name','=',lot_name)], limit=1)`. -/
def findLotByName (s : Store) (n : String) : Option Lot :=
  s.lots.find? (fun l => l.name == n)

/-- Lot resolution as done in every endpoint: by id if the id is truthy, else by
name if the name is truthy (`if lot_id: browse ... elif lot_name: search ...`). -/
def findLot (s : Store) (lot_id : Option Nat) (lot_name : Option String) : Option Lot :=
  if optNatTruthy lot_id then
    s.lots.find? (fun l => some l.id == lot_id)
  else if optStrTruthy lot_name then
    s.lots.find? (fun l => some l.name == lot_name)
  else none

/-- `browse(submission_id)` + `.exists()`. -/
def findSubmission (s : Store) (i : Nat) : Option Submission :=
  s.submissions.find? (fun sub => sub.id == i)

/-- `browse(scan_line_id)` + `.exists()`. -/
def findScanLine (s : Store) (i : Nat) : Option ScanLine :=
  s.scan_lines.find? (fun ln => ln.id == i)

/-- `browse(project_id)` + `.exists()`. -/
def findProject (s : Store) (i : Nat) : Option Project :=
  s.projects.find? (fun p => p.id == i)

/-- `browse(rack_id)` + `.exists()`. -/
def findRack (s : Store) (i : Nat) : Option Rack :=
  s.racks.find? (fun r => r.id == i)

/-! ## Identity resolver (`_authenticate_sale_person`) -/

/-- Error message for a missing credential. -/
def authRequiredMsg : String := "Authentication token is required"

/-- Error message for an unresolvable credential. -/
def invalidTokenMsg : String := "Invalid authentication token"

/-- `_authenticate_sale_person`: missing/empty token fails, otherwise the sale
person holding the token is looked up.  The endpoints unwrap the JSON error into
its message, so the failure is modelled directly as the message string. -/
def authenticateSalePerson (s : Store) (api_token : Option String) : Except String SalePerson :=
  if !optStrTruthy api_token then .error authRequiredMsg
  else
    match s.sale_persons.find? (fun p => p.token_for_sale_person == api_token) with
    | none => .error invalidTokenMsg
    | some p => .ok p

/-! ## Auth endpoints: login / logout / refresh_token -/

/-- Overwrite the stored credential of the sale person with the given id
(`sale_person.sudo().write({'token_for_sale_person': tok})`). -/
def writeToken (s : Store) (spId : Nat) (tok : String) : Store :=
  { s with sale_persons :=
      s.sale_persons.map (fun p =>
        if p.id == spId then { p with token_for_sale_person := some tok } else p) }

/-- Result of `login`. -/
inductive LoginRes
  | err (msg : String)
  | ok (api_token : String) (sale_person_id : Nat)
      (running_project : Option Project) (available_racks : List Rack)
deriving DecidableEq, Repr

/-- `login`: find the sale person by mobile phone, check the PIN, generate a
token only when none is stored, and report the running project and racks of the
sale person's location.  `freshToken` stands for `secrets.token_hex(16)`. -/
def login (s : Store) (mobile_phone pin : Option String) (freshToken : String) :
    Store × LoginRes :=
  if !optStrTruthy mobile_phone || !optStrTruthy pin then
    (s, .err "Mobile phone and PIN are required")
  else
    match s.sale_persons.find? (fun p => some p.mobile_phone == mobile_phone) with
    | none => (s, .err "Sale person not found with the provided mobile phone number")
    | some sp =>
      if some sp.pin != pin then (s, .err "Invalid PIN")
      else
        -- token is generated only when the stored one is falsy
        let (s1, tok) :=
          if !optStrTruthy sp.token_for_sale_person then
            (writeToken s sp.id freshToken, freshToken)
          else (s, sp.token_for_sale_person.getD "")
        let (proj, racks) :=
          match sp.store_location with
          | some loc =>
            (s.projects.find? (fun p => p.state == .in_progress && p.location_id == some loc),
             s.racks.filter (fun r => r.store_location_id == loc && r.active))
          | none => (none, [])
        (s1, .ok tok sp.id proj racks)

/-- Result of `logout` / `refresh_token`. -/
inductive TokenRes
  | err (msg : String)
  | ok (api_token : Option String)
deriving DecidableEq, Repr

/-- `logout`: authenticate, then overwrite the credential with a fresh token
that is not shared with the client. -/
def logout (s : Store) (api_token : Option String) (freshToken : String) :
    Store × TokenRes :=
  match authenticateSalePerson s api_token with
  | .error m => (s, .err m)
  | .ok sp => (writeToken s sp.id freshToken, .ok none)

/-- `refresh_token`: authenticate, then overwrite the credential with a fresh
token and return it. -/
def refreshToken (s : Store) (api_token : Option String) (freshToken : String) :
    Store × TokenRes :=
  match authenticateSalePerson s api_token with
  | .error m => (s, .err m)
  | .ok sp => (writeToken s sp.id freshToken, .ok (some freshToken))

/-! ## create_submission -/

/-- One entry of the `scan_lines` request list of `create_submission` (also the
`scan_lines_to_add` entries of the two mutation endpoints). -/
structure ScanData where
  lot_name : Option String
  lot_id : Option Nat
  scanned_qty : Option Int
  rack_id : Option Nat
  notes : String
deriving DecidableEq, Repr

/-- A per-line validation/creation result dict. -/
structure LineResult where
  lot_name : String
  lot_id : Option Nat
  success : Bool
  error : Option String
  product_id : Option Nat
  product_name : Option String
  scan_id : Option Nat
deriving DecidableEq, Repr

/-- Error message for a line with missing required fields. -/
def lineFieldsMsg : String := "Lot information and scanned quantity are required"

/-- Error message for an unresolvable lot. -/
def lotNotFoundMsg : String := "Lot not found"

/-- The validate phase for one scan line: required fields
(`not (lot_name or lot_id) or scanned_qty is None`), then lot resolution. -/
def validateScanLine (s : Store) (d : ScanData) : LineResult :=
  let r0 : LineResult :=
    { lot_name := d.lot_name.getD "", lot_id := d.lot_id, success := false,
      error := none, product_id := none, product_name := none, scan_id := none }
  if (!(optStrTruthy d.lot_name || optNatTruthy d.lot_id)) || d.scanned_qty.isNone then
    { r0 with error := some lineFieldsMsg }
  else
    match findLot s d.lot_id d.lot_name with
    | none => { r0 with error := some lotNotFoundMsg }
    | some lot =>
      { r0 with success := true, product_id := some lot.product.id,
                product_name := some lot.product.name }

/-- The `create_submission` request parameters. -/
structure CreateReq where
  api_token : Option String
  project_id : Option Nat
  rack_id : Option Nat
  notes : String
  scan_lines : List ScanData
  previous_submission_id : Option Nat
  scanned_lot_name : Option String
deriving DecidableEq, Repr

/-- Response of `create_submission`. -/
inductive CreateRes
  | err (msg : String) (scan_lines : Option (List LineResult))
  | ok (submission_id : Nat) (submission_reference : String)
      (scan_lines : List LineResult) (valid_lines invalid_lines : Nat)
      (reinv : Option (Nat × String))
deriving DecidableEq, Repr

/-- The re-inventory info carried by a response (`is_reinventory` block). -/
def CreateRes.reinvInfo : CreateRes → Option (Nat × String)
  | .err _ _ => none
  | .ok _ _ _ _ _ r => r

/-- `notes + "\n" + extra` when notes is truthy, else just `extra`. -/
def appendNote (notes extra : String) : String :=
  if notes != "" then notes ++ "\n" ++ extra else extra

/-- Most recent candidate by `order='validation_datetime DESC', limit=1`
(ties resolved towards the earlier record in store order). -/
def latestByValidation : List Submission → Option Submission
  | [] => none
  | x :: xs =>
    match latestByValidation xs with
    | none => some x
    | some y => if y.validation_datetime > x.validation_datetime then some y else some x

/-- The auto-detect branch of the link phase: resolve the scanned lot by name,
then search validated submissions containing a scan line for that lot,
restricted to the project's location when the project has one, most recent
first. -/
def heuristicPrev (s : Store) (project : Project) (scanned_lot_name : String) :
    Option Submission :=
  match findLotByName s scanned_lot_name with
  | none => none
  | some lot =>
    let cands := s.submissions.filter (fun sub =>
      sub.state == .validated
      && s.scan_lines.any (fun ln => ln.submission_id == sub.id && ln.lot_id == lot.id)
      && (if optNatTruthy project.location_id then
            sub.project_location_id == project.location_id
          else true))
    latestByValidation cands

/-- The link phase of `create_submission`: returns the linked previous
submission (if any) and the submission notes after the auto-generated
annotation.  The explicit branch is tried exactly when the
`previous_submission_id` parameter is truthy; only otherwise (`elif`) is the
`scanned_lot_name` heuristic consulted. -/
def linkPhase (s : Store) (project : Project) (kw : CreateReq) :
    Option Submission × String :=
  if optNatTruthy kw.previous_submission_id then
    match s.submissions.find? (fun sub => some sub.id == kw.previous_submission_id) with
    | some p =>
      if p.state == .validated then
        (some p, appendNote kw.notes ("Re-inventory based on submission " ++ p.name))
      else (none, kw.notes)
    | none => (none, kw.notes)
  else if optStrTruthy kw.scanned_lot_name then
    match heuristicPrev s project (kw.scanned_lot_name.getD "") with
    | some p =>
      (some p, appendNote kw.notes
        ("Auto-detected re-inventory based on lot " ++ kw.scanned_lot_name.getD ""
          ++ " (submission " ++ p.name ++ ")"))
    | none => (none, kw.notes)
  else (none, kw.notes)

/-- `if the previous submission has a product_id, use it for consistency`. -/
def inheritedProduct : Option Submission → Option Nat
  | none => none
  | some p => if optNatTruthy p.product_id then p.product_id else none

/-- The distinct resolved products of the request lines (the Python
`product_ids` set, in first-occurrence order). -/
def resolvedProducts (s : Store) (lines : List ScanData) : List Nat :=
  (lines.filterMap (fun d => (findLot s d.lot_id d.lot_name).map (fun l => l.product.id))).eraseDups

/-- `f"Sale Person: {name} - {notes}"` / `f"Sale Person: {name}"` note prefixing
used when creating lines. -/
def salePersonNote (spName notes : String) : String :=
  if notes != "" then "Sale Person: " ++ spName ++ " - " ++ notes
  else "Sale Person: " ++ spName

/-- The scan line record created for input line `i` of the batch (commit phase
of `create_submission`).  `none` is unreachable under the all-valid guard (the
Python code would raise there). -/
def createLineVals (s : Store) (sp : SalePerson) (project : Project)
    (subId : Nat) (defRack : Option Nat) (i : Nat) (d : ScanData) : Option ScanLine :=
  (findLot s d.lot_id d.lot_name).map (fun lot =>
    let lineRack := match d.rack_id with
      | some r => some r
      | none => defRack
    { id := subId + 1 + i, submission_id := subId, project_id := project.id,
      product_id := lot.product.id, lot_id := lot.id,
      lot_name := if optStrTruthy d.lot_name then d.lot_name else none,
      scanned_qty := d.scanned_qty.getD 0,
      sale_person_id := sp.id,
      rack_id := if optNatTruthy lineRack then lineRack else none,
      notes := salePersonNote sp.name d.notes,
      state := .draft })

/-- Modelled from the spec: `inventory.submission.action_submit` is defined in
a model file of this repository that is not under `src/`.  Per the spec
(section 4.2 step 4 and the section 8 scenario) it transitions the submission
from `draft` to `submitted` and its scan lines to `submitted`. -/
def actionSubmit (s : Store) (subId : Nat) : Store :=
  { s with
    submissions := s.submissions.map (fun sub =>
      if sub.id == subId then { sub with state := .submitted } else sub),
    scan_lines := s.scan_lines.map (fun ln =>
      if ln.submission_id == subId then { ln with state := .submitted } else ln) }

/-- The commit path of `create_submission` (entered after the gates pass and
every line validated): link phase, product homogeneity, record creation, and
`action_submit`. -/
def createCommit (s : Store) (sp : SalePerson) (project : Project) (kw : CreateReq) :
    Store × CreateRes :=
  let vres := kw.scan_lines.map (validateScanLine s)
  let lp := linkPhase s project kw
  let prev := lp.1
  let pids := resolvedProducts s kw.scan_lines
  let productFinal : Option Nat :=
    if pids.length == 1 then pids.head? else inheritedProduct prev
  let rackFinal : Option Nat :=
    if optNatTruthy kw.rack_id then
      match s.racks.find? (fun r => some r.id == kw.rack_id) with
      | some r => some r.id
      | none => none
    else none
  let subId := s.next_id
  let sub : Submission :=
    { id := subId, name := "SUB-" ++ toString subId, project_id := project.id,
      project_location_id := project.location_id, sale_person_id := sp.id,
      product_id := productFinal, rack_id := rackFinal,
      previous_submission_id := prev.map (fun p => p.id), notes := lp.2,
      state := .draft, validation_datetime := 0 }
  let newLines := kw.scan_lines.enum.filterMap
    (fun p => createLineVals s sp project subId kw.rack_id p.1 p.2)
  let s1 : Store :=
    { s with submissions := s.submissions ++ [sub],
             scan_lines := s.scan_lines ++ newLines,
             next_id := subId + 1 + kw.scan_lines.length }
  let s2 := actionSubmit s1 subId
  let lineResults := vres.enum.map (fun p => { p.2 with scan_id := some (subId + 1 + p.1) })
  let reinv : Option (Nat × String) :=
    if optNatTruthy kw.previous_submission_id then prev.map (fun p => (p.id, p.name))
    else none
  (s2, .ok subId sub.name lineResults kw.scan_lines.length 0 reinv)

/-- Error message of the atomic batch rejection. -/
def batchInvalidMsg : String := "All scan lines must be valid to create a submission"

/-- `create_submission`: required-parameter check, authentication, project
gates, two-phase validate-then-commit. -/
def createSubmission (s : Store) (kw : CreateReq) : Store × CreateRes :=
  if !optNatTruthy kw.project_id || kw.scan_lines.isEmpty then
    (s, .err "Project ID and scan lines are required" none)
  else
    match authenticateSalePerson s kw.api_token with
    | .error m => (s, .err m none)
    | .ok sp =>
      match s.projects.find? (fun p => some p.id == kw.project_id) with
      | none => (s, .err "Project not found" none)
      | some project =>
        if project.state != .in_progress then (s, .err "Project is not in progress" none)
        else
          let vres := kw.scan_lines.map (validateScanLine s)
          if !vres.all (fun r => r.success) then
            (s, .err batchInvalidMsg (some vres))
          else createCommit s sp project kw

/-! ## update_submission / modify_submitted -/

/-- One entry of `scan_lines_to_update`: `some` on a field models key presence
in the update dict (`'scanned_qty' in update_data`, etc.). -/
structure UpdateItem where
  scan_line_id : Option Nat
  scanned_qty : Option Int
  rack_id : Option Nat
  notes : Option String
deriving DecidableEq, Repr

/-- An entry of the `errors` result bucket: either an add-line result dict or a
`{error, scan_line_id?}` dict. -/
inductive UpdErr
  | line (r : LineResult)
  | ref (msg : String) (scan_line_id : Option Nat)
deriving DecidableEq, Repr

/-- The four result buckets of the mutation endpoints. -/
structure UpdResults where
  added : List LineResult
  updated : List Nat
  removed : List Nat
  errors : List UpdErr
deriving DecidableEq, Repr

/-- Empty result buckets. -/
def emptyResults : UpdResults := { added := [], updated := [], removed := [], errors := [] }

/-- Request of the two mutation endpoints. -/
structure UpdReq where
  api_token : Option String
  submission_id : Option Nat
  scan_lines_to_add : List ScanData
  scan_lines_to_update : List UpdateItem
  scan_lines_to_remove : List Nat
deriving DecidableEq, Repr

/-- Response of the two mutation endpoints. -/
inductive UpdRes
  | err (msg : String)
  | ok (submission_id : Nat) (results : UpdResults)
deriving DecidableEq, Repr

/-- Error message for a line reference outside the submission. -/
def lineNotInSubMsg : String := "Scan line not found in this submission"

/-- `update_submission`: add one line (`scan_lines_to_add` loop body). -/
def stepAdd (sp : SalePerson) (submission : Submission) :
    Store × UpdResults → ScanData → Store × UpdResults
  | (s, r), d =>
    let base : LineResult :=
      { lot_name := d.lot_name.getD "", lot_id := d.lot_id, success := false,
        error := none, product_id := none, product_name := none, scan_id := none }
    if (!(optStrTruthy d.lot_name || optNatTruthy d.lot_id)) || d.scanned_qty.isNone then
      (s, { r with errors := r.errors ++ [.line { base with error := some lineFieldsMsg }] })
    else
      match findLot s d.lot_id d.lot_name with
      | none => (s, { r with errors := r.errors ++ [.line { base with error := some lotNotFoundMsg }] })
      | some lot =>
        let rackRaw : Option Nat := match d.rack_id with
          | some x => some x
          | none => submission.rack_id
        let ln : ScanLine :=
          { id := s.next_id, submission_id := submission.id,
            project_id := submission.project_id,
            product_id := lot.product.id, lot_id := lot.id, lot_name := none,
            scanned_qty := d.scanned_qty.getD 0, sale_person_id := sp.id,
            rack_id := if optNatTruthy rackRaw then rackRaw else none,
            notes := salePersonNote sp.name d.notes,
            state := if submission.state == .draft then .draft else .submitted }
        let res : LineResult :=
          { base with
            success := true, scan_id := some ln.id,
            product_id := some lot.product.id, product_name := some lot.product.name }
        ({ s with scan_lines := s.scan_lines ++ [ln], next_id := s.next_id + 1 },
         { r with added := r.added ++ [res] })

/-- Apply a sparse update dict to a line (`scan_line.write(update_vals)` of
`update_submission`). -/
def applyUpd (sp : SalePerson) (u : UpdateItem) (ln : ScanLine) : ScanLine :=
  { ln with
    scanned_qty := u.scanned_qty.getD ln.scanned_qty,
    rack_id := match u.rack_id with
      | some x => some x
      | none => ln.rack_id,
    notes := match u.notes with
      | some n => "Sale Person: " ++ sp.name ++ " - " ++ n
      | none => ln.notes }

/-- Write an updated line back into the store by id. -/
def writeLine (s : Store) (i : Nat) (f : ScanLine → ScanLine) : Store :=
  { s with scan_lines := s.scan_lines.map (fun l => if l.id == i then f l else l) }

/-- `update_submission`: update one line (`scan_lines_to_update` loop body). -/
def stepUpd (sp : SalePerson) (subId : Nat) :
    Store × UpdResults → UpdateItem → Store × UpdResults
  | (s, r), u =>
    if !optNatTruthy u.scan_line_id then
      (s, { r with errors := r.errors ++ [.ref "Scan line ID is required for updates" none] })
    else
      match s.scan_lines.find? (fun ln => some ln.id == u.scan_line_id) with
      | none => (s, { r with errors := r.errors ++ [.ref lineNotInSubMsg u.scan_line_id] })
      | some ln =>
        if ln.submission_id != subId then
          (s, { r with errors := r.errors ++ [.ref lineNotInSubMsg u.scan_line_id] })
        else if ln.state != .draft && ln.state != .submitted then
          (s, { r with errors := r.errors ++
            [.ref "Only draft or submitted scan lines can be updated" u.scan_line_id] })
        else
          if u.scanned_qty.isSome || u.rack_id.isSome || u.notes.isSome then
            (writeLine s ln.id (applyUpd sp u), { r with updated := r.updated ++ [ln.id] })
          else (s, r)

/-- `update_submission`: remove one line (`scan_lines_to_remove` loop body). -/
def stepRem (subId : Nat) : Store × UpdResults → Nat → Store × UpdResults
  | (s, r), i =>
    match findScanLine s i with
    | none => (s, { r with errors := r.errors ++ [.ref lineNotInSubMsg (some i)] })
    | some ln =>
      if ln.submission_id != subId then
        (s, { r with errors := r.errors ++ [.ref lineNotInSubMsg (some i)] })
      else if ln.state != .draft && ln.state != .submitted then
        (s, { r with errors := r.errors ++
          [.ref "Only draft or submitted scan lines can be removed" (some i)] })
      else
        ({ s with scan_lines := s.scan_lines.filter (fun l => l.id != i) },
         { r with removed := r.removed ++ [i] })

/-- `update_submission`: gates (submission id, auth, existence, draft/submitted
state, ownership) then the three independent batches. -/
def updateSubmission (s : Store) (kw : UpdReq) : Store × UpdRes :=
  if !optNatTruthy kw.submission_id then (s, .err "Submission ID is required")
  else
    match authenticateSalePerson s kw.api_token with
    | .error m => (s, .err m)
    | .ok sp =>
      match s.submissions.find? (fun sub => some sub.id == kw.submission_id) with
      | none => (s, .err "Submission not found")
      | some submission =>
        if submission.state != .draft && submission.state != .submitted then
          (s, .err "Only draft or submitted submissions can be modified")
        else if submission.sale_person_id != sp.id then
          (s, .err "You can only modify your own submissions")
        else
          let st1 := kw.scan_lines_to_add.foldl (stepAdd sp submission) (s, emptyResults)
          let st2 := kw.scan_lines_to_update.foldl (stepUpd sp submission.id) st1
          let st3 := kw.scan_lines_to_remove.foldl (stepRem submission.id) st2
          (st3.1, .ok submission.id st3.2)

/-- `modify_submitted`: add one line; additionally enforces product homogeneity
against the submission's set product, and creates the line in `submitted`
state. -/
def stepAddM (sp : SalePerson) (submission : Submission) :
    Store × UpdResults → ScanData → Store × UpdResults
  | (s, r), d =>
    let base : LineResult :=
      { lot_name := d.lot_name.getD "", lot_id := d.lot_id, success := false,
        error := none, product_id := none, product_name := none, scan_id := none }
    if (!(optStrTruthy d.lot_name || optNatTruthy d.lot_id)) || d.scanned_qty.isNone then
      (s, { r with errors := r.errors ++ [.line { base with error := some lineFieldsMsg }] })
    else
      match findLot s d.lot_id d.lot_name with
      | none => (s, { r with errors := r.errors ++ [.line { base with error := some lotNotFoundMsg }] })
      | some lot =>
        if optNatTruthy submission.product_id && submission.product_id != some lot.product.id then
          let msg := "Cannot add a scan line with product ID " ++ toString lot.product.id
            ++ " to a submission with product ID "
            ++ toString (submission.product_id.getD 0) ++ "."
          (s, { r with errors := r.errors ++ [.line { base with error := some msg }] })
        else
          let rackRaw : Option Nat := match d.rack_id with
            | some x => some x
            | none => submission.rack_id
          let ln : ScanLine :=
            { id := s.next_id, submission_id := submission.id,
              project_id := submission.project_id,
              product_id := lot.product.id, lot_id := lot.id, lot_name := none,
              scanned_qty := d.scanned_qty.getD 0, sale_person_id := sp.id,
              rack_id := if optNatTruthy rackRaw then rackRaw else none,
              notes := salePersonNote sp.name d.notes,
              state := .submitted }
          let res : LineResult :=
            { base with
              success := true, scan_id := some ln.id,
              product_id := some lot.product.id, product_name := some lot.product.name }
          ({ s with scan_lines := s.scan_lines ++ [ln], next_id := s.next_id + 1 },
           { r with added := r.added ++ [res] })

/-- Apply a sparse update dict in `modify_submitted`: the rack key contributes
only when present and truthy. -/
def applyUpdM (sp : SalePerson) (u : UpdateItem) (ln : ScanLine) : ScanLine :=
  { ln with
    scanned_qty := u.scanned_qty.getD ln.scanned_qty,
    rack_id := match u.rack_id with
      | some x => if x != 0 then some x else ln.rack_id
      | none => ln.rack_id,
    notes := match u.notes with
      | some n => "Sale Person: " ++ sp.name ++ " - " ++ n
      | none => ln.notes }

/-- Whether the `modify_submitted` update dict contributes any field
(`if update_vals:`). -/
def hasUpdM (u : UpdateItem) : Bool :=
  u.scanned_qty.isSome
    || (match u.rack_id with
        | some x => x != 0
        | none => false)
    || u.notes.isSome

/-- `modify_submitted`: update one line; requires the line to be in `submitted`
state. -/
def stepUpdM (sp : SalePerson) (subId : Nat) :
    Store × UpdResults → UpdateItem → Store × UpdResults
  | (s, r), u =>
    if !optNatTruthy u.scan_line_id then
      (s, { r with errors := r.errors ++ [.ref "Scan line ID is required for updates" none] })
    else
      match s.scan_lines.find? (fun ln => some ln.id == u.scan_line_id) with
      | none => (s, { r with errors := r.errors ++ [.ref lineNotInSubMsg u.scan_line_id] })
      | some ln =>
        if ln.submission_id != subId then
          (s, { r with errors := r.errors ++ [.ref lineNotInSubMsg u.scan_line_id] })
        else if ln.state != .submitted then
          (s, { r with errors := r.errors ++
            [.ref "Only scan lines in submitted state can be updated" u.scan_line_id] })
        else
          if hasUpdM u then
            (writeLine s ln.id (applyUpdM sp u), { r with updated := r.updated ++ [ln.id] })
          else (s, r)

/-- `modify_submitted`: remove one line; requires the line to be in `submitted`
state. -/
def stepRemM (subId : Nat) : Store × UpdResults → Nat → Store × UpdResults
  | (s, r), i =>
    match findScanLine s i with
    | none => (s, { r with errors := r.errors ++ [.ref lineNotInSubMsg (some i)] })
    | some ln =>
      if ln.submission_id != subId then
        (s, { r with errors := r.errors ++ [.ref lineNotInSubMsg (some i)] })
      else if ln.state != .submitted then
        (s, { r with errors := r.errors ++
          [.ref "Only scan lines in submitted state can be removed" (some i)] })
      else
        ({ s with scan_lines := s.scan_lines.filter (fun l => l.id != i) },
         { r with removed := r.removed ++ [i] })

/-- `modify_submitted`: gates (submission id, auth, existence, `submitted`
state only, ownership) then the three batches; the chatter audit note
(`message_post`) is not part of the persisted entity state modelled here. -/
def modifySubmitted (s : Store) (kw : UpdReq) : Store × UpdRes :=
  if !optNatTruthy kw.submission_id then (s, .err "Submission ID is required")
  else
    match authenticateSalePerson s kw.api_token with
    | .error m => (s, .err m)
    | .ok sp =>
      match s.submissions.find? (fun sub => some sub.id == kw.submission_id) with
      | none => (s, .err "Submission not found")
      | some submission =>
        if submission.state != .submitted then
          (s, .err "Only submissions in submitted state can be modified with this endpoint")
        else if submission.sale_person_id != sp.id then
          (s, .err "You can only modify your own submissions")
        else
          let st1 := kw.scan_lines_to_add.foldl (stepAddM sp submission) (s, emptyResults)
          let st2 := kw.scan_lines_to_update.foldl (stepUpdM sp submission.id) st1
          let st3 := kw.scan_lines_to_remove.foldl (stepRemM submission.id) st2
          (st3.1, .ok submission.id st3.2)

/-! ## Listing and detail queries -/

/-- Sort orders accepted by the listing endpoints. -/
inductive SortOrder
  | idAsc
  | idDesc
deriving DecidableEq, Repr

/-- Insertion into a list sorted by `le`. -/
def insertBy (le : α → α → Bool) (a : α) : List α → List α
  | [] => [a]
  | b :: bs => if le a b then a :: b :: bs else b :: insertBy le a bs

/-- Insertion sort by `le`. -/
def sortBy (le : α → α → Bool) (l : List α) : List α :=
  l.foldr (insertBy le) []

/-- Order a list of submissions per the `order` parameter. -/
def orderSubs (o : SortOrder) (l : List Submission) : List Submission :=
  match o with
  | .idAsc => sortBy (fun a b => a.id ≤ b.id) l
  | .idDesc => sortBy (fun a b => b.id ≤ a.id) l

/-- Order a list of scan lines per the `order` parameter. -/
def orderLines (o : SortOrder) (l : List ScanLine) : List ScanLine :=
  match o with
  | .idAsc => sortBy (fun a b => a.id ≤ b.id) l
  | .idDesc => sortBy (fun a b => b.id ≤ a.id) l

/-- Response of `get_submissions`: the page plus pagination metadata. -/
inductive SubsRes
  | err (msg : String)
  | ok (submissions : List Submission) (total_count limit offset : Nat) (has_more : Bool)
deriving DecidableEq, Repr

/-- The submissions returned by a `get_submissions` response. -/
def SubsRes.page : SubsRes → List Submission
  | .err _ => []
  | .ok subs _ _ _ _ => subs

/-- `get_submissions`: authenticate, filter to the acting agent's own
submissions (optionally by project), paginate. -/
def getSubmissions (s : Store) (api_token : Option String) (project_id : Option Nat)
    (limit offset : Nat) (order : SortOrder) : SubsRes :=
  match authenticateSalePerson s api_token with
  | .error m => .err m
  | .ok sp =>
    let domain := s.submissions.filter (fun sub =>
      sub.sale_person_id == sp.id
        && (if optNatTruthy project_id then some sub.project_id == project_id else true))
    let total := domain.length
    let page := ((orderSubs order domain).drop offset).take limit
    .ok page total limit offset (decide (offset + page.length < total))

/-- Response of `get_submission_scan_lines`. -/
inductive LinesRes
  | err (msg : String)
  | ok (submission_id : Nat) (submission_name : String) (scan_lines : List ScanLine)
deriving DecidableEq, Repr

/-- `get_submission_scan_lines`: submission id required, authenticate, find the
submission, enforce ownership, list its lines in the requested order. -/
def getSubmissionScanLines (s : Store) (api_token : Option String)
    (submission_id : Option Nat) (order : SortOrder) : LinesRes :=
  if !optNatTruthy submission_id then .err "Submission ID is required"
  else
    match authenticateSalePerson s api_token with
    | .error m => .err m
    | .ok sp =>
      match s.submissions.find? (fun sub => some sub.id == submission_id) with
      | none => .err "Submission not found"
      | some submission =>
        if submission.sale_person_id != sp.id then
          .err "You can only view your own submissions"
        else
          .ok submission.id submission.name
            (orderLines order (s.scan_lines.filter (fun ln => ln.submission_id == submission.id)))

/-- Response of `get_previous_submission_details`. -/
inductive PrevRes
  | err (msg : String)
  | ok (submission : Submission) (scan_lines : List ScanLine)
deriving DecidableEq, Repr

/-- `get_previous_submission_details`.  The source assigns the whole 3-tuple
returned by `_authenticate_sale_person` to `sale_person` and guards on
`if not sale_person`; a 3-tuple is always truthy, so the authentication-failed
branch is dead code and a resolver failure is never detected — the operation
proceeds regardless of the credential. -/
def getPreviousSubmissionDetails (s : Store) (api_token : Option String)
    (submission_id : Option Nat) : PrevRes :=
  let _auth := authenticateSalePerson s api_token
  if !optNatTruthy submission_id then .err "Submission ID is required"
  else
    match s.submissions.find? (fun sub => some sub.id == submission_id) with
    | none => .err "Submission not found"
    | some submission =>
      if submission.state != .validated then
        .err "Can only use validated submissions for re-inventory"
      else
        .ok submission (s.scan_lines.filter (fun ln => ln.submission_id == submission.id))

/-! ## Quantity reconciliation (get_lot_info) and re-inventory check -/

/-- `SELECT SUM(quantity) FROM stock_quant WHERE product_id=.. AND lot_id=..
AND location_id=..` with null-as-zero. -/
def lotStockAt (s : Store) (productId lotId locationId : Nat) : Int :=
  ((s.quants.filter (fun q =>
      q.product_id == productId && q.lot_id == lotId && q.location_id == locationId)).map
    (fun q => q.quantity)).sum

/-- Cumulative quantity confirmed by validated scan lines for a lot. -/
def inventoriedQty (s : Store) (lotId : Nat) : Int :=
  ((s.scan_lines.filter (fun ln => ln.lot_id == lotId && ln.state == .validated)).map
    (fun ln => ln.scanned_qty)).sum

/-- Total physical stock of a product at a location. -/
def productStockAt (s : Store) (productId locationId : Nat) : Int :=
  ((s.quants.filter (fun q =>
      q.product_id == productId && q.location_id == locationId)).map
    (fun q => q.quantity)).sum

/-- One entry of the `product_lots` breakdown. -/
structure ProductLotEntry where
  lot_id : Nat
  product_id : Nat
  lot_inventoried_stock : Int
  lot_stock : Int
  product_stock : Int
deriving DecidableEq, Repr

/-- Response of `get_lot_info`. -/
inductive LotInfoRes
  | err (msg : String)
  | ok (lot_id product_id : Nat) (lot_inventoried_stock lot_stock product_stock : Int)
      (product_lots : List ProductLotEntry)
deriving DecidableEq, Repr

/-- `get_lot_info`: the lot-name/location presence check precedes
authentication; then lot and location lookups and the reconciliation sums.  The
`GROUP BY ... HAVING SUM(quantity) > 0` breakdown is modelled over the distinct
lot ids of the matching ledger entries that exist in the lot table (the SQL
join). -/
def getLotInfo (s : Store) (api_token : Option String)
    (lot_name : Option String) (location_id : Option Nat) : LotInfoRes :=
  if !optStrTruthy lot_name || !optNatTruthy location_id then
    .err "Lot name and location ID are required"
  else
    match authenticateSalePerson s api_token with
    | .error m => .err m
    | .ok _sp =>
      match findLotByName s (lot_name.getD "") with
      | none => .err lotNotFoundMsg
      | some lot =>
        let loc := location_id.getD 0
        if !(s.locations.contains loc) then .err "Location not found"
        else
          let productId := lot.product.id
          let lotIds := (((s.quants.filter (fun q =>
              q.product_id == productId && q.location_id == loc)).map
            (fun q => q.lot_id)).eraseDups).filter
            (fun lid => s.lots.any (fun l => l.id == lid)
              && lotStockAt s productId lid loc > 0)
          let productLots := lotIds.map (fun lid =>
            { lot_id := lid, product_id := productId,
              lot_inventoried_stock := inventoriedQty s lid,
              lot_stock := lotStockAt s productId lid loc,
              product_stock := productStockAt s productId loc : ProductLotEntry })
          .ok lot.id productId (inventoriedQty s lot.id)
            (lotStockAt s productId lot.id loc) (productStockAt s productId loc) productLots

/-- Response of `check_previous_submissions`. -/
inductive CheckPrevRes
  | err (msg : String)
  | ok (has_previous : Bool) (lot : Lot)
      (previous_submissions : List (Submission × List ScanLine))
deriving DecidableEq, Repr

/-- `check_previous_submissions`: authenticate first, then resolve the lot by
name and list the validated submissions containing it (restricted to a location
when one is given), most recent first, each paired with only its scan lines for
that lot; submissions whose matching line list is empty are dropped. -/
def checkPreviousSubmissions (s : Store) (api_token : Option String)
    (lot_name : Option String) (location_id : Option Nat) : CheckPrevRes :=
  match authenticateSalePerson s api_token with
  | .error m => .err m
  | .ok _sp =>
    if !optStrTruthy lot_name then .err "Lot name is required"
    else
      match findLotByName s (lot_name.getD "") with
      | none => .err ("Lot not found: " ++ lot_name.getD "")
      | some lot =>
        let cands := s.submissions.filter (fun sub =>
          sub.state == .validated
            && s.scan_lines.any (fun ln => ln.submission_id == sub.id && ln.lot_id == lot.id)
            && (if optNatTruthy location_id then sub.project_location_id == location_id
                else true))
        let ordered := sortBy
          (fun a b => b.validation_datetime ≤ a.validation_datetime) cands
        let prev := (ordered.map (fun sub =>
            (sub, s.scan_lines.filter
              (fun ln => ln.submission_id == sub.id && ln.lot_id == lot.id)))).filter
          (fun p => !p.2.isEmpty)
        .ok (!prev.isEmpty) lot prev

/-! ## Result projections -/

/-- Whether a `create_submission` response reports success. -/
def CreateRes.isOk : CreateRes → Bool
  | .err _ _ => false
  | .ok _ _ _ _ _ _ => true

/-- Whether a mutation response reports success. -/
def UpdRes.success : UpdRes → Bool
  | .err _ => false
  | .ok _ _ => true

/-! ## A concrete store used to exercise the operations -/

/-- Example product 1. -/
def prodW : Product := { id := 1, name := "Widget" }

/-- Example product 2. -/
def prodG : Product := { id := 2, name := "Gadget" }

/-- Example lot of product 1. -/
def lotL1 : Lot := { id := 1, name := "L1", product := prodW }

/-- Example lot of product 2. -/
def lotL2 : Lot := { id := 2, name := "L2", product := prodG }

/-- Example agent A, holding credential `tokA`. -/
def spA : SalePerson :=
  { id := 1, name := "Alice", mobile_phone := "111", pin := "1111",
    token_for_sale_person := some "tokA", store_location := some 10 }

/-- Example agent B, holding credential `tokB`. -/
def spB : SalePerson :=
  { id := 2, name := "Bob", mobile_phone := "222", pin := "2222",
    token_for_sale_person := some "tokB", store_location := some 10 }

/-- Example in-progress project at location 10. -/
def proj : Project :=
  { id := 100, name := "Proj", location_id := some 10, state := .in_progress }

/-- Example validated submission of agent A carrying a product. -/
def prevSub : Submission :=
  { id := 50, name := "SUB-50", project_id := 100, project_location_id := some 10,
    sale_person_id := 1, product_id := some 1, rack_id := none,
    previous_submission_id := none, notes := "", state := .validated,
    validation_datetime := 5 }

/-- Example validated scan line of `prevSub` for lot `L1`. -/
def prevLine : ScanLine :=
  { id := 60, submission_id := 50, project_id := 100, product_id := 1, lot_id := 1,
    lot_name := none, scanned_qty := 5, sale_person_id := 1, rack_id := none,
    notes := "Sale Person: Alice", state := .validated }

/-- The example store. -/
def exStore : Store :=
  { sale_persons := [spA, spB], projects := [proj], lots := [lotL1, lotL2],
    racks := [], locations := [10], quants := [], submissions := [prevSub],
    scan_lines := [prevLine], next_id := 1000 }

/-- Request line scanning lot `L1` with the given quantity. -/
def reqLineL1 (q : Int) : ScanData :=
  { lot_name := some "L1", lot_id := none, scanned_qty := some q,
    rack_id := none, notes := "" }

/-- Request line scanning lot `L2` with the given quantity. -/
def reqLineL2 (q : Int) : ScanData :=
  { lot_name := some "L2", lot_id := none, scanned_qty := some q,
    rack_id := none, notes := "" }

/-- Request line scanning the nonexistent lot `GHOST`. -/
def reqLineGhost : ScanData :=
  { lot_name := some "GHOST", lot_id := none, scanned_qty := some 1,
    rack_id := none, notes := "" }

/-! ## C1: batch atomicity -/

/-- C1: for every `create_submission` request that reaches the validate phase
and whose scan-line list contains at least one invalid line (lot unresolvable,
or lot identifier or scanned quantity missing — exactly the lines whose
validation result is unsuccessful), the operation returns failure carrying one
per-line result for every line, and the store is returned unchanged: no
Submission and no ScanLine is created. -/
theorem create_submission_atomic_on_invalid_line
    (s : Store) (kw : CreateReq)
    (hp : optNatTruthy kw.project_id = true)
    (hne : kw.scan_lines.isEmpty = false)
    (sp : SalePerson) (ha : authenticateSalePerson s kw.api_token = .ok sp)
    (project : Project)
    (hproj : s.projects.find? (fun p => some p.id == kw.project_id) = some project)
    (hprog : project.state = .in_progress)
    (hbad : ∃ r ∈ kw.scan_lines.map (validateScanLine s), r.success = false) :
    createSubmission s kw
      = (s, .err batchInvalidMsg (some (kw.scan_lines.map (validateScanLine s))))
    ∧ (kw.scan_lines.map (validateScanLine s)).length = kw.scan_lines.length := by
  have hall : (kw.scan_lines.map (validateScanLine s)).all (fun r => r.success) = false := by
    obtain ⟨r, hr, hf⟩ := hbad
    cases hb : (kw.scan_lines.map (validateScanLine s)).all (fun r => r.success) with
    | false => rfl
    | true => exact absurd (List.all_eq_true.mp hb r hr) (by simp [hf])
  refine ⟨?_, List.length_map _ _⟩
  simp [createSubmission, hp, hne, ha, hproj, hprog, hall]

/-- C1 witness: a concrete batch whose second line references the nonexistent
lot `GHOST` is rejected wholesale with both per-line results, and the store is
unchanged. -/
theorem create_submission_atomic_on_invalid_line_witness :
    createSubmission exStore
        { api_token := some "tokA", project_id := some 100, rack_id := none,
          notes := "", scan_lines := [reqLineL1 5, reqLineGhost],
          previous_submission_id := none, scanned_lot_name := none }
      = (exStore, .err batchInvalidMsg
          (some ([reqLineL1 5, reqLineGhost].map (validateScanLine exStore))))
    ∧ ([reqLineL1 5, reqLineGhost].map (validateScanLine exStore)).length
        = [reqLineL1 5, reqLineGhost].length :=
  create_submission_atomic_on_invalid_line exStore _ rfl rfl spA rfl proj rfl rfl
    ⟨validateScanLine exStore reqLineGhost, by decide, by decide⟩

/-! ## C2: authentication short-circuiting -/

/-- C2 counterexample: `create_submission` with a missing credential *and* a
missing project id fails with the required-parameters validation error, not
with the identity resolver's failure — even though the resolver would have
failed with `authRequiredMsg`.  So not every operation propagates the
resolver's failure before any other validation. -/
theorem auth_not_first_counterexample :
    createSubmission exStore
        { api_token := none, project_id := none, rack_id := none, notes := "",
          scan_lines := [], previous_submission_id := none, scanned_lot_name := none }
      = (exStore, .err "Project ID and scan lines are required" none)
    ∧ authenticateSalePerson exStore none = .error authRequiredMsg
    ∧ "Project ID and scan lines are required" ≠ authRequiredMsg := by
  refine ⟨rfl, rfl, ?_⟩
  decide

/-- C2 amended: authentication short-circuits with the resolver's failure
propagated verbatim and no store mutation, but only after the
required-parameter presence checks, which precede authentication in
`create_submission`, `update_submission`, `modify_submitted`,
`get_submission_scan_lines` and `get_lot_info`; `logout`, `refresh_token`,
`get_submissions` and `check_previous_submissions` authenticate first; and
`get_previous_submission_details` never detects a resolver failure at all — it
proceeds as if authenticated. -/
theorem auth_short_circuit_amended
    (s : Store) (tok : Option String) (m : String)
    (hauth : authenticateSalePerson s tok = .error m)
    (kwC : CreateReq) (hC1 : optNatTruthy kwC.project_id = true)
    (hC2 : kwC.scan_lines.isEmpty = false) (hCt : kwC.api_token = tok)
    (kwU : UpdReq) (hU1 : optNatTruthy kwU.submission_id = true) (hUt : kwU.api_token = tok)
    (kwM : UpdReq) (hM1 : optNatTruthy kwM.submission_id = true) (hMt : kwM.api_token = tok)
    (sid : Option Nat) (hsid : optNatTruthy sid = true) (ord : SortOrder)
    (lotn : Option String) (hlotn : optStrTruthy lotn = true)
    (loc : Option Nat) (hloc : optNatTruthy loc = true)
    (ft : String) (pid : Option Nat) (lim off : Nat) (lotn2 : Option String)
    (psid : Option Nat) (hpsid : optNatTruthy psid = true) (psub : Submission)
    (hpfind : s.submissions.find? (fun sub => some sub.id == psid) = some psub)
    (hpstate : psub.state = .validated) :
    createSubmission s kwC = (s, .err m none)
    ∧ updateSubmission s kwU = (s, .err m)
    ∧ modifySubmitted s kwM = (s, .err m)
    ∧ getSubmissionScanLines s tok sid ord = .err m
    ∧ getLotInfo s tok lotn loc = .err m
    ∧ logout s tok ft = (s, .err m)
    ∧ refreshToken s tok ft = (s, .err m)
    ∧ getSubmissions s tok pid lim off ord = .err m
    ∧ checkPreviousSubmissions s tok lotn2 loc = .err m
    ∧ getPreviousSubmissionDetails s tok psid
        = .ok psub (s.scan_lines.filter (fun l => l.submission_id == psub.id)) := by
  refine ⟨?_, ?_, ?_, ?_, ?_, ?_, ?_, ?_, ?_, ?_⟩
  · simp [createSubmission, hC1, hC2, hCt, hauth]
  · simp [updateSubmission, hU1, hUt, hauth]
  · simp [modifySubmitted, hM1, hMt, hauth]
  · simp [getSubmissionScanLines, hsid, hauth]
  · simp [getLotInfo, hlotn, hloc, hauth]
  · simp [logout, hauth]
  · simp [refreshToken, hauth]
  · simp [getSubmissions, hauth]
  · simp [checkPreviousSubmissions, hauth]
  · simp [getPreviousSubmissionDetails, hpsid, hpfind, hpstate]

/-- C2 amended witness: the amended behavior at a concrete store with an
unresolvable credential `badtok`; in particular `get_previous_submission_details`
succeeds on the validated submission despite the bad credential. -/
theorem auth_short_circuit_amended_witness :
    createSubmission exStore
        { api_token := some "badtok", project_id := some 100, rack_id := none,
          notes := "", scan_lines := [reqLineL1 5],
          previous_submission_id := none, scanned_lot_name := none }
      = (exStore, .err invalidTokenMsg none)
    ∧ updateSubmission exStore
        { api_token := some "badtok", submission_id := some 50,
          scan_lines_to_add := [], scan_lines_to_update := [], scan_lines_to_remove := [] }
      = (exStore, .err invalidTokenMsg)
    ∧ modifySubmitted exStore
        { api_token := some "badtok", submission_id := some 50,
          scan_lines_to_add := [], scan_lines_to_update := [], scan_lines_to_remove := [] }
      = (exStore, .err invalidTokenMsg)
    ∧ getSubmissionScanLines exStore (some "badtok") (some 50) .idAsc = .err invalidTokenMsg
    ∧ getLotInfo exStore (some "badtok") (some "L1") (some 10) = .err invalidTokenMsg
    ∧ logout exStore (some "badtok") "fresh" = (exStore, .err invalidTokenMsg)
    ∧ refreshToken exStore (some "badtok") "fresh" = (exStore, .err invalidTokenMsg)
    ∧ getSubmissions exStore (some "badtok") none 20 0 .idDesc = .err invalidTokenMsg
    ∧ checkPreviousSubmissions exStore (some "badtok") (some "L1") none
        = .err invalidTokenMsg
    ∧ getPreviousSubmissionDetails exStore (some "badtok") (some 50)
        = .ok prevSub (exStore.scan_lines.filter (fun l => l.submission_id == prevSub.id)) :=
  auth_short_circuit_amended exStore (some "badtok") invalidTokenMsg rfl
    { api_token := some "badtok", project_id := some 100, rack_id := none,
      notes := "", scan_lines := [reqLineL1 5],
      previous_submission_id := none, scanned_lot_name := none } rfl rfl rfl
    { api_token := some "badtok", submission_id := some 50,
      scan_lines_to_add := [], scan_lines_to_update := [], scan_lines_to_remove := [] }
    rfl rfl
    { api_token := some "badtok", submission_id := some 50,
      scan_lines_to_add := [], scan_lines_to_update := [], scan_lines_to_remove := [] }
    rfl rfl
    (some 50) rfl .idAsc (some "L1") rfl (some 10) rfl
    "fresh" none 20 0 (some "L1") (some 50) rfl prevSub rfl rfl

/-! ## Success-path lemmas for create_submission -/

/-- On the success path (gates pass, all lines valid) `create_submission` is
the commit phase. -/
theorem createSubmission_success
    (s : Store) (kw : CreateReq)
    (hp : optNatTruthy kw.project_id = true)
    (hne : kw.scan_lines.isEmpty = false)
    (sp : SalePerson) (ha : authenticateSalePerson s kw.api_token = .ok sp)
    (project : Project)
    (hproj : s.projects.find? (fun p => some p.id == kw.project_id) = some project)
    (hprog : project.state = .in_progress)
    (hall : (kw.scan_lines.map (validateScanLine s)).all (fun r => r.success) = true) :
    createSubmission s kw = createCommit s sp project kw := by
  simp [createSubmission, hp, hne, ha, hproj, hprog, hall]

/-- The submission record created by the commit phase: the last submission of
the resulting store, with its product, previous-submission link, and state. -/
theorem createCommit_created_fields (s : Store) (sp : SalePerson) (project : Project)
    (kw : CreateReq) :
    ((createCommit s sp project kw).1.submissions.getLast?).map
        (fun sub => (sub.product_id, sub.previous_submission_id, sub.state))
      = some
          ((if (resolvedProducts s kw.scan_lines).length == 1
            then (resolvedProducts s kw.scan_lines).head?
            else inheritedProduct (linkPhase s project kw).1),
           ((linkPhase s project kw).1).map (fun p => p.id),
           SubState.submitted) := by
  simp [createCommit, actionSubmit, List.map_append, List.getLast?_concat]

/-! ## C3: submission product -/

/-- A mixed-product re-inventory request: two lines spanning two products plus
a valid explicit previous submission that carries a product. -/
def kwMixed : CreateReq :=
  { api_token := some "tokA", project_id := some 100, rack_id := none, notes := "",
    scan_lines := [reqLineL1 5, reqLineL2 3],
    previous_submission_id := some 50, scanned_lot_name := none }

/-- C3 counterexample: a successfully created submission whose lines span two
distinct products still has `product_id` set (it keeps the product inherited
from the linked previous submission) — the claim says it would be unset. -/
theorem submission_product_mixed_counterexample :
    ((createSubmission exStore kwMixed).1.submissions.getLast?).map
        (fun sub => sub.product_id) = some (some 1)
    ∧ resolvedProducts exStore kwMixed.scan_lines = [1, 2]
    ∧ (createSubmission exStore kwMixed).2.isOk = true := ⟨rfl, rfl, rfl⟩

/-- C3 amended: for every successfully created submission, if the resolved
products of its lines span exactly one distinct product the submission's
`product_id` is that product (overriding any product inherited from a linked
previous submission); if they span more than one distinct product, `product_id`
is the product inherited from the previous-submission linkage when that
linkage supplied one, and unset otherwise. -/
theorem submission_product_amended
    (s : Store) (kw : CreateReq)
    (hp : optNatTruthy kw.project_id = true)
    (hne : kw.scan_lines.isEmpty = false)
    (sp : SalePerson) (ha : authenticateSalePerson s kw.api_token = .ok sp)
    (project : Project)
    (hproj : s.projects.find? (fun p => some p.id == kw.project_id) = some project)
    (hprog : project.state = .in_progress)
    (hall : (kw.scan_lines.map (validateScanLine s)).all (fun r => r.success) = true) :
    ((createSubmission s kw).1.submissions.getLast?).map (fun sub => sub.product_id)
      = some (if (resolvedProducts s kw.scan_lines).length == 1
              then (resolvedProducts s kw.scan_lines).head?
              else inheritedProduct (linkPhase s project kw).1) := by
  rw [createSubmission_success s kw hp hne sp ha project hproj hprog hall]
  have h := createCommit_created_fields s sp project kw
  obtain ⟨sub, hsub, hf⟩ := Option.map_eq_some'.mp h
  rw [hsub]
  simp only [Prod.mk.injEq] at hf
  simp [hf.1]

/-- C3 amended witness: a single-product batch linked to a previous submission
gets that product. -/
theorem submission_product_amended_witness :
    ((createSubmission exStore
        { api_token := some "tokA", project_id := some 100, rack_id := none,
          notes := "", scan_lines := [reqLineL1 5, reqLineL1 3],
          previous_submission_id := some 50, scanned_lot_name := none
          }).1.submissions.getLast?).map (fun sub => sub.product_id)
      = some (if (resolvedProducts exStore [reqLineL1 5, reqLineL1 3]).length == 1
              then (resolvedProducts exStore [reqLineL1 5, reqLineL1 3]).head?
              else inheritedProduct (linkPhase exStore proj
                { api_token := some "tokA", project_id := some 100, rack_id := none,
                  notes := "", scan_lines := [reqLineL1 5, reqLineL1 3],
                  previous_submission_id := some 50, scanned_lot_name := none }).1) :=
  submission_product_amended exStore
    { api_token := some "tokA", project_id := some 100, rack_id := none,
      notes := "", scan_lines := [reqLineL1 5, reqLineL1 3],
      previous_submission_id := some 50, scanned_lot_name := none }
    rfl rfl spA rfl proj rfl rfl rfl

/-! ## C4: explicit previous-submission precedence -/

/-- C4: when an explicit, valid (existing and validated) previous submission is
referenced, the created submission links exactly to it, and the whole operation
is invariant under the `scanned_lot_name` hint — the auto-detect heuristic is
never consulted and never overrides the explicit reference. -/
theorem explicit_prev_precedence
    (s : Store) (kw : CreateReq) (pid : Nat)
    (hpid : kw.previous_submission_id = some pid) (hpt : pid ≠ 0)
    (psub : Submission)
    (hfind : s.submissions.find? (fun sub => some sub.id == kw.previous_submission_id)
      = some psub)
    (hval : psub.state = .validated)
    (hp : optNatTruthy kw.project_id = true)
    (hne : kw.scan_lines.isEmpty = false)
    (sp : SalePerson) (ha : authenticateSalePerson s kw.api_token = .ok sp)
    (project : Project)
    (hproj : s.projects.find? (fun p => some p.id == kw.project_id) = some project)
    (hprog : project.state = .in_progress)
    (hall : (kw.scan_lines.map (validateScanLine s)).all (fun r => r.success) = true) :
    ((createSubmission s kw).1.submissions.getLast?).map
        (fun sub => sub.previous_submission_id) = some (some pid)
    ∧ ∀ hint, createSubmission s { kw with scanned_lot_name := hint }
        = createSubmission s kw := by
  have hpidt : optNatTruthy kw.previous_submission_id = true := by
    rw [hpid]; simp [optNatTruthy, hpt]
  have hid : psub.id = pid := by
    have h := List.find?_some hfind
    rw [hpid] at h
    simpa using h
  have hlp : (linkPhase s project kw).1 = some psub := by
    simp [linkPhase, hpidt, hfind, hval]
  constructor
  · rw [createSubmission_success s kw hp hne sp ha project hproj hprog hall]
    have h := createCommit_created_fields s sp project kw
    obtain ⟨sub, hsub, hf⟩ := Option.map_eq_some'.mp h
    rw [hsub]
    simp only [Prod.mk.injEq] at hf
    simp [hf.2.1, hlp, hid]
  · intro hint
    have hlink : linkPhase s project { kw with scanned_lot_name := hint }
        = linkPhase s project kw := by
      simp [linkPhase, hpidt]
    have h1 := createSubmission_success s { kw with scanned_lot_name := hint }
      hp hne sp ha project hproj hprog hall
    have h2 := createSubmission_success s kw hp hne sp ha project hproj hprog hall
    rw [h1, h2]
    simp [createCommit, hlink]

/-- C4 witness: with both an explicit valid reference (submission 50) and a
hint supplied, the link is to submission 50, and replacing the hint changes
nothing. -/
theorem explicit_prev_precedence_witness :
    ((createSubmission exStore
        { api_token := some "tokA", project_id := some 100, rack_id := none,
          notes := "", scan_lines := [reqLineL1 5],
          previous_submission_id := some 50, scanned_lot_name := some "L2"
          }).1.submissions.getLast?).map
        (fun sub => sub.previous_submission_id) = some (some 50)
    ∧ createSubmission exStore
        { api_token := some "tokA", project_id := some 100, rack_id := none,
          notes := "", scan_lines := [reqLineL1 5],
          previous_submission_id := some 50, scanned_lot_name := some "XYZ" }
      = createSubmission exStore
        { api_token := some "tokA", project_id := some 100, rack_id := none,
          notes := "", scan_lines := [reqLineL1 5],
          previous_submission_id := some 50, scanned_lot_name := some "L2" } :=
  ⟨(explicit_prev_precedence exStore
      { api_token := some "tokA", project_id := some 100, rack_id := none,
        notes := "", scan_lines := [reqLineL1 5],
        previous_submission_id := some 50, scanned_lot_name := some "L2" }
      50 rfl (by decide) prevSub rfl rfl
      rfl rfl spA rfl proj rfl rfl rfl).1,
   (explicit_prev_precedence exStore
        { api_token := some "tokA", project_id := some 100, rack_id := none,
          notes := "", scan_lines := [reqLineL1 5],
          previous_submission_id := some 50, scanned_lot_name := some "L2" }
      50 rfl (by decide) prevSub rfl rfl
      rfl rfl spA rfl proj rfl rfl rfl).2 (some "XYZ")⟩

/-! ## C9: re-inventory info in the response -/

/-- An auto-detect re-inventory request: no explicit reference, a
`scanned_lot_name` hint that matches the validated submission 50. -/
def kwAuto : CreateReq :=
  { api_token := some "tokA", project_id := some 100, rack_id := none, notes := "",
    scan_lines := [reqLineL1 4], previous_submission_id := none,
    scanned_lot_name := some "L1" }

/-- C9 counterexample: a successfully created submission whose re-inventory
linkage was established by the auto-detect heuristic (its persisted
`previous_submission_id` is submission 50) carries no re-inventory info in the
response. -/
theorem reinv_info_missing_counterexample :
    ((createSubmission exStore kwAuto).1.submissions.getLast?).map
        (fun sub => sub.previous_submission_id) = some (some 50)
    ∧ ((createSubmission exStore kwAuto).2).reinvInfo = none
    ∧ (createSubmission exStore kwAuto).2.isOk = true := ⟨rfl, rfl, rfl⟩

/-- C9 amended: the response of a successful `create_submission` carries the
re-inventory linkage info exactly when the explicit `previous_submission_id`
parameter was supplied (truthy) and the link was established; a linkage
established by the auto-detect heuristic is persisted on the created
submission but not reported in the response. -/
theorem reinv_info_amended
    (s : Store) (kw : CreateReq)
    (hp : optNatTruthy kw.project_id = true)
    (hne : kw.scan_lines.isEmpty = false)
    (sp : SalePerson) (ha : authenticateSalePerson s kw.api_token = .ok sp)
    (project : Project)
    (hproj : s.projects.find? (fun p => some p.id == kw.project_id) = some project)
    (hprog : project.state = .in_progress)
    (hall : (kw.scan_lines.map (validateScanLine s)).all (fun r => r.success) = true) :
    ((createSubmission s kw).2).reinvInfo
      = (if optNatTruthy kw.previous_submission_id
         then ((linkPhase s project kw).1).map (fun p => (p.id, p.name))
         else none)
    ∧ ((createSubmission s kw).1.submissions.getLast?).map
        (fun sub => sub.previous_submission_id)
      = some (((linkPhase s project kw).1).map (fun p => p.id)) := by
  rw [createSubmission_success s kw hp hne sp ha project hproj hprog hall]
  constructor
  · simp [createCommit, CreateRes.reinvInfo]
  · have h := createCommit_created_fields s sp project kw
    obtain ⟨sub, hsub, hf⟩ := Option.map_eq_some'.mp h
    rw [hsub]
    simp only [Prod.mk.injEq] at hf
    simp [hf.2.1]

/-- C9 amended witness: the auto-detect instance — the persisted link is
submission 50 while the response info is absent because the explicit parameter
was not supplied. -/
theorem reinv_info_amended_witness :
    ((createSubmission exStore kwAuto).2).reinvInfo
      = (if optNatTruthy kwAuto.previous_submission_id
         then ((linkPhase exStore proj kwAuto).1).map (fun p => (p.id, p.name))
         else none)
    ∧ ((createSubmission exStore kwAuto).1.submissions.getLast?).map
        (fun sub => sub.previous_submission_id)
      = some (((linkPhase exStore proj kwAuto).1).map (fun p => p.id)) :=
  reinv_info_amended exStore kwAuto rfl rfl spA rfl proj rfl rfl rfl

/-! ## C5: validated scan lines are immutable -/

/-- C5: a scan line targeted by an update or remove item is mutable exactly
when its state permits — in `update_submission` the `validated` state is the
only one rejected (so mutability is exactly `{draft, submitted}`), and in
`modify_submitted` only `submitted` lines are mutable; in every rejected case
the item fails with the state error appended to the error bucket and the store
(hence the line's fields and existence) is unchanged. -/
theorem validated_line_immutable
    (s : Store) (r : UpdResults) (sp : SalePerson) (subId i : Nat) (ln : ScanLine)
    (hfind : findScanLine s i = some ln)
    (hsub : ln.submission_id = subId)
    (hi : i ≠ 0) (q : Int) :
    stepUpd sp subId (s, r)
        { scan_line_id := some i, scanned_qty := some q, rack_id := none, notes := none }
      = (if ln.state = .validated
         then (s, { r with errors := r.errors ++
                [.ref "Only draft or submitted scan lines can be updated" (some i)] })
         else (writeLine s ln.id (applyUpd sp
                { scan_line_id := some i, scanned_qty := some q, rack_id := none, notes := none }),
               { r with updated := r.updated ++ [ln.id] }))
    ∧ stepRem subId (s, r) i
      = (if ln.state = .validated
         then (s, { r with errors := r.errors ++
                [.ref "Only draft or submitted scan lines can be removed" (some i)] })
         else ({ s with scan_lines := s.scan_lines.filter (fun l => l.id != i) },
               { r with removed := r.removed ++ [i] }))
    ∧ stepUpdM sp subId (s, r)
        { scan_line_id := some i, scanned_qty := some q, rack_id := none, notes := none }
      = (if ln.state = .submitted
         then (writeLine s ln.id (applyUpdM sp
                { scan_line_id := some i, scanned_qty := some q, rack_id := none, notes := none }),
               { r with updated := r.updated ++ [ln.id] })
         else (s, { r with errors := r.errors ++
                [.ref "Only scan lines in submitted state can be updated" (some i)] }))
    ∧ stepRemM subId (s, r) i
      = (if ln.state = .submitted
         then ({ s with scan_lines := s.scan_lines.filter (fun l => l.id != i) },
               { r with removed := r.removed ++ [i] })
         else (s, { r with errors := r.errors ++
                [.ref "Only scan lines in submitted state can be removed" (some i)] })) := by
  have hfind2 : s.scan_lines.find? (fun l => l.id == i) = some ln := hfind
  refine ⟨?_, ?_, ?_, ?_⟩ <;> cases hst : ln.state <;>
    simp [stepUpd, stepRem, stepUpdM, stepRemM, hasUpdM, optNatTruthy, hi,
      hfind2, hfind, hsub, hst]

/-- C5 witness: the item targeting the validated line 60 of submission 50 is
rejected with the state error by all four step functions, store unchanged. -/
theorem validated_line_immutable_witness :
    stepUpd spA 50 (exStore, emptyResults)
        { scan_line_id := some 60, scanned_qty := some 7, rack_id := none, notes := none }
      = (if prevLine.state = .validated
         then (exStore, { emptyResults with errors := emptyResults.errors ++
                [.ref "Only draft or submitted scan lines can be updated" (some 60)] })
         else (writeLine exStore prevLine.id (applyUpd spA
                { scan_line_id := some 60, scanned_qty := some 7, rack_id := none, notes := none }),
               { emptyResults with updated := emptyResults.updated ++ [prevLine.id] }))
    ∧ stepRem 50 (exStore, emptyResults) 60
      = (if prevLine.state = .validated
         then (exStore, { emptyResults with errors := emptyResults.errors ++
                [.ref "Only draft or submitted scan lines can be removed" (some 60)] })
         else ({ exStore with scan_lines := exStore.scan_lines.filter (fun l => l.id != 60) },
               { emptyResults with removed := emptyResults.removed ++ [60] }))
    ∧ stepUpdM spA 50 (exStore, emptyResults)
        { scan_line_id := some 60, scanned_qty := some 7, rack_id := none, notes := none }
      = (if prevLine.state = .submitted
         then (writeLine exStore prevLine.id (applyUpdM spA
                { scan_line_id := some 60, scanned_qty := some 7, rack_id := none, notes := none }),
               { emptyResults with updated := emptyResults.updated ++ [prevLine.id] })
         else (exStore, { emptyResults with errors := emptyResults.errors ++
                [.ref "Only scan lines in submitted state can be updated" (some 60)] }))
    ∧ stepRemM 50 (exStore, emptyResults) 60
      = (if prevLine.state = .submitted
         then ({ exStore with scan_lines := exStore.scan_lines.filter (fun l => l.id != 60) },
               { emptyResults with removed := emptyResults.removed ++ [60] })
         else (exStore, { emptyResults with errors := emptyResults.errors ++
                [.ref "Only scan lines in submitted state can be removed" (some 60)] })) :=
  validated_line_immutable exStore emptyResults spA 50 60 prevLine rfl rfl (by decide) 7

/-! ## C6: ownership enforcement -/

/-- C6 counterexample: agent B hitting agent A's *validated* submission via
`update_submission` gets the state error, not the ownership error — the state
gate precedes the ownership check. -/
theorem ownership_state_precedence_counterexample :
    updateSubmission exStore
        { api_token := some "tokB", submission_id := some 50,
          scan_lines_to_add := [], scan_lines_to_update := [], scan_lines_to_remove := [] }
      = (exStore, .err "Only draft or submitted submissions can be modified")
    ∧ prevSub.sale_person_id = spA.id
    ∧ spA.id ≠ spB.id
    ∧ authenticateSalePerson exStore (some "tokB") = .ok spB
    ∧ "Only draft or submitted submissions can be modified"
        ≠ "You can only modify your own submissions" :=
  ⟨rfl, rfl, by decide, rfl, by decide⟩

/-- Membership is preserved by sorted insertion. -/
theorem mem_insertBy (le : α → α → Bool) (a b : α) (l : List α) :
    b ∈ insertBy le a l ↔ b = a ∨ b ∈ l := by
  induction l with
  | nil => simp [insertBy]
  | cons c cs ih =>
    by_cases h : le a c
    · simp [insertBy, h]
    · simp only [insertBy, h, Bool.false_eq_true, if_false, List.mem_cons, ih]
      tauto

/-- Membership is preserved by the insertion sort. -/
theorem mem_sortBy (le : α → α → Bool) (b : α) (l : List α) :
    b ∈ sortBy le l ↔ b ∈ l := by
  induction l with
  | nil => simp [sortBy]
  | cons c cs ih =>
    show b ∈ insertBy le c (sortBy le cs) ↔ _
    rw [mem_insertBy, ih]
    simp

/-- Membership is preserved by submission ordering. -/
theorem mem_orderSubs (o : SortOrder) (b : Submission) (l : List Submission) :
    b ∈ orderSubs o l ↔ b ∈ l := by
  cases o <;> simp [orderSubs, mem_sortBy]

/-- C6 amended: for distinct agents, a mutation against the other agent's
submission fails with the ownership error when the submission passes the state
gate (`draft`/`submitted` for `update_submission`, `submitted` for
`modify_submitted`) and with the state error otherwise, always without
mutation; `get_submission_scan_lines` always fails with the ownership error;
and `get_submissions` only ever returns submissions owned by the caller. -/
theorem ownership_enforcement_amended
    (s : Store) (tok : Option String) (spb : SalePerson)
    (hauth : authenticateSalePerson s tok = .ok spb)
    (sid : Nat) (hsid : sid ≠ 0) (sub : Submission)
    (hfind : findSubmission s sid = some sub)
    (hown : sub.sale_person_id ≠ spb.id)
    (kwU : UpdReq) (hUt : kwU.api_token = tok) (hUs : kwU.submission_id = some sid)
    (kwM : UpdReq) (hMt : kwM.api_token = tok) (hMs : kwM.submission_id = some sid)
    (ord : SortOrder) (pid : Option Nat) (lim off : Nat) :
    updateSubmission s kwU
      = (s, .err (if sub.state = .draft ∨ sub.state = .submitted
                  then "You can only modify your own submissions"
                  else "Only draft or submitted submissions can be modified"))
    ∧ modifySubmitted s kwM
      = (s, .err (if sub.state = .submitted
                  then "You can only modify your own submissions"
                  else "Only submissions in submitted state can be modified with this endpoint"))
    ∧ getSubmissionScanLines s tok (some sid) ord
      = .err "You can only view your own submissions"
    ∧ ((getSubmissions s tok pid lim off ord).page).all
        (fun x => x.sale_person_id == spb.id) = true := by
  have hfind2 : s.submissions.find? (fun x => x.id == sid) = some sub := hfind
  refine ⟨?_, ?_, ?_, ?_⟩
  · cases hst : sub.state <;>
      simp [updateSubmission, hUt, hUs, optNatTruthy, hsid, hauth, hfind2, hst, hown]
  · cases hst : sub.state <;>
      simp [modifySubmitted, hMt, hMs, optNatTruthy, hsid, hauth, hfind2, hst, hown]
  · cases hst : sub.state <;>
      simp [getSubmissionScanLines, optNatTruthy, hsid, hauth, hfind2, hst, hown]
  · rw [List.all_eq_true]
    intro x hx
    simp only [getSubmissions, hauth, SubsRes.page] at hx
    have hx1 := List.mem_of_mem_take hx
    have hx2 := List.mem_of_mem_drop hx1
    rw [mem_orderSubs] at hx2
    have hx3 := (List.mem_filter.mp hx2).2
    rw [Bool.and_eq_true] at hx3
    exact hx3.1

/-- C6 amended witness: agent B against agent A's validated submission 50 —
state error from both mutation endpoints, ownership error from the detail
read, and B's listing contains no foreign submissions. -/
theorem ownership_enforcement_amended_witness :
    updateSubmission exStore
        { api_token := some "tokB", submission_id := some 50,
          scan_lines_to_add := [], scan_lines_to_update := [], scan_lines_to_remove := [] }
      = (exStore, .err (if prevSub.state = .draft ∨ prevSub.state = .submitted
                        then "You can only modify your own submissions"
                        else "Only draft or submitted submissions can be modified"))
    ∧ modifySubmitted exStore
        { api_token := some "tokB", submission_id := some 50,
          scan_lines_to_add := [], scan_lines_to_update := [], scan_lines_to_remove := [] }
      = (exStore, .err (if prevSub.state = .submitted
                        then "You can only modify your own submissions"
                        else "Only submissions in submitted state can be modified with this endpoint"))
    ∧ getSubmissionScanLines exStore (some "tokB") (some 50) .idAsc
      = .err "You can only view your own submissions"
    ∧ ((getSubmissions exStore (some "tokB") none 20 0 .idDesc).page).all
        (fun x => x.sale_person_id == spB.id) = true :=
  ownership_enforcement_amended exStore (some "tokB") spB rfl 50 (by decide) prevSub
    rfl (by decide)
    { api_token := some "tokB", submission_id := some 50,
      scan_lines_to_add := [], scan_lines_to_update := [], scan_lines_to_remove := [] }
    rfl rfl
    { api_token := some "tokB", submission_id := some 50,
      scan_lines_to_add := [], scan_lines_to_update := [], scan_lines_to_remove := [] }
    rfl rfl .idAsc none 20 0

/-! ## C7: credential rotation -/

/-- C7 counterexample: a successful `login` for an agent that already holds a
credential leaves the store — hence the stored credential `tokA` — unchanged;
`login` does not rotate. -/
theorem login_no_rotation_counterexample :
    (login exStore (some "111") (some "1111") "fresh").1 = exStore
    ∧ (login exStore (some "111") (some "1111") "fresh").2 = .ok "tokA" 1 (some proj) []
    ∧ spA.token_for_sale_person = some "tokA" := ⟨rfl, rfl, rfl⟩

/-- C7 amended: on success, `logout` and `refresh_token` overwrite the agent's
stored credential with the freshly generated token; `login` generates and
stores a fresh credential only when the agent has no (truthy) stored
credential, and otherwise returns the stored credential with the store
unchanged. -/
theorem credential_rotation_amended
    (s : Store) (tok : Option String) (ft : String) (sp : SalePerson)
    (hauth : authenticateSalePerson s tok = .ok sp)
    (phone pin : Option String) (sp2 : SalePerson)
    (hphone : optStrTruthy phone = true) (hpin : optStrTruthy pin = true)
    (hfound : s.sale_persons.find? (fun p => some p.mobile_phone == phone) = some sp2)
    (hpinok : some sp2.pin = pin) :
    logout s tok ft = (writeToken s sp.id ft, .ok none)
    ∧ refreshToken s tok ft = (writeToken s sp.id ft, .ok (some ft))
    ∧ (login s phone pin ft).1
      = (if optStrTruthy sp2.token_for_sale_person then s else writeToken s sp2.id ft) := by
  refine ⟨?_, ?_, ?_⟩
  · simp [logout, hauth]
  · simp [refreshToken, hauth]
  · cases hb : optStrTruthy sp2.token_for_sale_person <;>
      simp [login, hphone, hpin, hfound, hpinok, hb]

/-- C7 amended witness: agent A's credential is rotated to the fresh token by
logout/refresh, while a login of agent B (who already holds a credential)
leaves the store unchanged. -/
theorem credential_rotation_amended_witness :
    logout exStore (some "tokA") "fresh" = (writeToken exStore spA.id "fresh", .ok none)
    ∧ refreshToken exStore (some "tokA") "fresh"
      = (writeToken exStore spA.id "fresh", .ok (some "fresh"))
    ∧ (login exStore (some "222") (some "2222") "fresh").1
      = (if optStrTruthy spB.token_for_sale_person then exStore
         else writeToken exStore spB.id "fresh") :=
  credential_rotation_amended exStore (some "tokA") "fresh" spA rfl
    (some "222") (some "2222") spB rfl rfl rfl rfl

/-! ## C8: scanned quantity pass-through -/

/-- A negative-quantity request. -/
def kwNeg : CreateReq :=
  { api_token := some "tokA", project_id := some 100, rack_id := none, notes := "",
    scan_lines := [reqLineL1 (-1)], previous_submission_id := none,
    scanned_lot_name := none }

/-- C8 counterexample: a scan line with scanned quantity −1 is accepted and
persisted by `create_submission` — no non-negativity check exists. -/
theorem negative_qty_persisted_counterexample :
    ((createSubmission exStore kwNeg).1.scan_lines.getLast?).map (fun l => l.scanned_qty)
      = some (-1)
    ∧ (createSubmission exStore kwNeg).2.isOk = true
    ∧ (-1 : Int) < 0 := ⟨rfl, rfl, by decide⟩

/-- C8 amended: every ScanLine persisted by `create_submission`,
`update_submission` or `modify_submitted` (created or updated) has a scanned
quantity equal to the value supplied in the request — passed through verbatim,
with no sign restriction. -/
theorem scanned_qty_passthrough_amended
    (s : Store) (r : UpdResults) (sp : SalePerson) (project : Project)
    (submission : Submission) (subId : Nat) (defRack : Option Nat) (i : Nat)
    (d : ScanData) (lot : Lot)
    (hv : ((!(optStrTruthy d.lot_name || optNatTruthy d.lot_id))
        || d.scanned_qty.isNone) = false)
    (hlot : findLot s d.lot_id d.lot_name = some lot)
    (hcons : (optNatTruthy submission.product_id
        && submission.product_id != some lot.product.id) = false)
    (u : UpdateItem) (l : ScanLine) :
    (createLineVals s sp project subId defRack i d).map (fun x => x.scanned_qty)
      = some (d.scanned_qty.getD 0)
    ∧ ((stepAdd sp submission (s, r) d).1.scan_lines.getLast?).map (fun x => x.scanned_qty)
      = some (d.scanned_qty.getD 0)
    ∧ ((stepAddM sp submission (s, r) d).1.scan_lines.getLast?).map (fun x => x.scanned_qty)
      = some (d.scanned_qty.getD 0)
    ∧ (applyUpd sp u l).scanned_qty = u.scanned_qty.getD l.scanned_qty
    ∧ (applyUpdM sp u l).scanned_qty = u.scanned_qty.getD l.scanned_qty := by
  have hcond : ¬((optStrTruthy d.lot_name = false ∧ optNatTruthy d.lot_id = false)
      ∨ d.scanned_qty = none) := by
    intro hcontra
    rcases hcontra with ⟨h1, h2⟩ | h3
    · rw [h1, h2] at hv; simp at hv
    · rw [h3] at hv; simp at hv
  have hcons' : ¬(optNatTruthy submission.product_id = true
      ∧ ¬submission.product_id = some lot.product.id) := by
    intro hcontra
    rw [hcontra.1] at hcons
    simp at hcons
    exact hcontra.2 hcons
  refine ⟨?_, ?_, ?_, ?_, ?_⟩
  · simp [createLineVals, hlot]
  · simp [stepAdd, hcond, hlot, List.getLast?_concat]
  · simp [stepAddM, hcond, hcons', hlot, List.getLast?_concat]
  · simp [applyUpd]
  · simp [applyUpdM]

/-- C8 amended witness: the pass-through at a concrete negative quantity. -/
theorem scanned_qty_passthrough_amended_witness :
    (createLineVals exStore spA proj 1000 none 0 (reqLineL1 (-1))).map
        (fun x => x.scanned_qty) = some ((reqLineL1 (-1)).scanned_qty.getD 0)
    ∧ ((stepAdd spA prevSub (exStore, emptyResults) (reqLineL1 (-1))).1.scan_lines.getLast?).map
        (fun x => x.scanned_qty) = some ((reqLineL1 (-1)).scanned_qty.getD 0)
    ∧ ((stepAddM spA prevSub (exStore, emptyResults) (reqLineL1 (-1))).1.scan_lines.getLast?).map
        (fun x => x.scanned_qty) = some ((reqLineL1 (-1)).scanned_qty.getD 0)
    ∧ (applyUpd spA
        { scan_line_id := some 60, scanned_qty := some (-2), rack_id := none, notes := none }
        prevLine).scanned_qty
      = ({ scan_line_id := some 60, scanned_qty := some (-2), rack_id := none,
           notes := none : UpdateItem }).scanned_qty.getD prevLine.scanned_qty
    ∧ (applyUpdM spA
        { scan_line_id := some 60, scanned_qty := some (-2), rack_id := none, notes := none }
        prevLine).scanned_qty
      = ({ scan_line_id := some 60, scanned_qty := some (-2), rack_id := none,
           notes := none : UpdateItem }).scanned_qty.getD prevLine.scanned_qty :=
  scanned_qty_passthrough_amended exStore emptyResults spA proj prevSub 1000 none 0
    (reqLineL1 (-1)) lotL1 rfl rfl rfl
    { scan_line_id := some 60, scanned_qty := some (-2), rack_id := none, notes := none }
    prevLine

/-! ## C10: field-less update items are no-ops -/

/-- A successful `find?` is stable under appending. -/
theorem find?_append_of_some {p : α → Bool} {l l' : List α} {a : α}
    (h : l.find? p = some a) : (l ++ l').find? p = some a := by
  rw [List.find?_append, h]
  rfl

/-- `find?` commutes with a map whose function preserves the predicate. -/
theorem find?_map_invariant {f : α → α} {p : α → Bool}
    (hf : ∀ a, p (f a) = p a) (l : List α) :
    (l.map f).find? p = (l.find? p).map f := by
  induction l with
  | nil => rfl
  | cons a as ih =>
    by_cases h : p a = true
    · rw [List.map_cons, List.find?_cons_of_pos _ ((hf a).trans h),
        List.find?_cons_of_pos _ h]
      rfl
    · rw [List.map_cons, List.find?_cons_of_neg _ (by rw [hf a]; simpa using h),
        List.find?_cons_of_neg _ (by simpa using h), ih]

/-- The invariant carried through the add/update folds of `update_submission`:
line `i` exists, belongs to submission `subId`, and is editable there. -/
def editableLineIn (s : Store) (subId i : Nat) : Prop :=
  ∃ ln, findScanLine s i = some ln ∧ ln.submission_id = subId
    ∧ (ln.state = .draft ∨ ln.state = .submitted)

/-- The corresponding invariant for `modify_submitted`. -/
def submittedLineIn (s : Store) (subId i : Nat) : Prop :=
  ∃ ln, findScanLine s i = some ln ∧ ln.submission_id = subId ∧ ln.state = .submitted

/-- Lookup of line `i` after a `writeLine` on line `j`. -/
theorem findScanLine_writeLine (s : Store) (j i : Nat) (f : ScanLine → ScanLine)
    (hf : ∀ l, (f l).id = l.id) :
    findScanLine (writeLine s j f) i
      = (findScanLine s i).map (fun l => if l.id == j then f l else l) := by
  unfold findScanLine writeLine
  exact find?_map_invariant
    (fun a => by by_cases h : a.id == j <;> simp [h, hf]) _

/-- Adding a line preserves lookup of an existing line (new records are
appended after existing ones). -/
theorem stepAdd_find (sp : SalePerson) (submission : Submission) (s : Store)
    (r : UpdResults) (d : ScanData) (i : Nat) (ln : ScanLine)
    (h : findScanLine s i = some ln) :
    findScanLine (stepAdd sp submission (s, r) d).1 i = some ln := by
  simp only [stepAdd]
  split
  · exact h
  · split
    · exact h
    · exact find?_append_of_some h

/-- The same for the `modify_submitted` add step. -/
theorem stepAddM_find (sp : SalePerson) (submission : Submission) (s : Store)
    (r : UpdResults) (d : ScanData) (i : Nat) (ln : ScanLine)
    (h : findScanLine s i = some ln) :
    findScanLine (stepAddM sp submission (s, r) d).1 i = some ln := by
  simp only [stepAddM]
  split
  · exact h
  · split
    · exact h
    · split
      · exact h
      · exact find?_append_of_some h

/-- The add step preserves the editable-line invariant. -/
theorem stepAdd_pres (sp : SalePerson) (submission : Submission)
    (st : Store × UpdResults) (d : ScanData) (subId i : Nat)
    (h : editableLineIn st.1 subId i) :
    editableLineIn (stepAdd sp submission st d).1 subId i := by
  obtain ⟨s, r⟩ := st
  obtain ⟨ln, h1, h2, h3⟩ := h
  exact ⟨ln, stepAdd_find sp submission s r d i ln h1, h2, h3⟩

/-- The `modify_submitted` add step preserves the submitted-line invariant. -/
theorem stepAddM_pres (sp : SalePerson) (submission : Submission)
    (st : Store × UpdResults) (d : ScanData) (subId i : Nat)
    (h : submittedLineIn st.1 subId i) :
    submittedLineIn (stepAddM sp submission st d).1 subId i := by
  obtain ⟨s, r⟩ := st
  obtain ⟨ln, h1, h2, h3⟩ := h
  exact ⟨ln, stepAddM_find sp submission s r d i ln h1, h2, h3⟩

/-- The update step preserves the editable-line invariant: it either leaves the
store unchanged or rewrites quantity/rack/notes of one line, never its id,
submission or state. -/
theorem stepUpd_store_cases (sp : SalePerson) (subId' : Nat) (s : Store)
    (r : UpdResults) (u : UpdateItem) :
    (stepUpd sp subId' (s, r) u).1 = s
    ∨ ∃ j, (stepUpd sp subId' (s, r) u).1 = writeLine s j (applyUpd sp u) := by
  simp only [stepUpd]
  split
  · exact Or.inl rfl
  · split
    · exact Or.inl rfl
    · split
      · exact Or.inl rfl
      · split
        · exact Or.inl rfl
        · split
          · exact Or.inr ⟨_, rfl⟩
          · exact Or.inl rfl

/-- The `modify_submitted` update step either leaves the store unchanged or
rewrites one line through `applyUpdM`. -/
theorem stepUpdM_store_cases (sp : SalePerson) (subId' : Nat) (s : Store)
    (r : UpdResults) (u : UpdateItem) :
    (stepUpdM sp subId' (s, r) u).1 = s
    ∨ ∃ j, (stepUpdM sp subId' (s, r) u).1 = writeLine s j (applyUpdM sp u) := by
  simp only [stepUpdM]
  split
  · exact Or.inl rfl
  · split
    · exact Or.inl rfl
    · split
      · exact Or.inl rfl
      · split
        · exact Or.inl rfl
        · split
          · exact Or.inr ⟨_, rfl⟩
          · exact Or.inl rfl

/-- The editable-line invariant survives a `writeLine` through `applyUpd`. -/
theorem editableLineIn_writeLine (s : Store) (j subId i : Nat) (sp : SalePerson)
    (u : UpdateItem) (h : editableLineIn s subId i) :
    editableLineIn (writeLine s j (applyUpd sp u)) subId i := by
  obtain ⟨ln, h1, h2, h3⟩ := h
  refine ⟨if ln.id == j then applyUpd sp u ln else ln, ?_, ?_, ?_⟩
  · rw [findScanLine_writeLine s j i (applyUpd sp u) (fun l => rfl), h1]
    rfl
  · by_cases hj : ln.id == j <;> simp [hj, applyUpd, h2]
  · by_cases hj : ln.id == j <;> simp [hj, applyUpd, h3]

/-- The submitted-line invariant survives a `writeLine` through `applyUpdM`. -/
theorem submittedLineIn_writeLine (s : Store) (j subId i : Nat) (sp : SalePerson)
    (u : UpdateItem) (h : submittedLineIn s subId i) :
    submittedLineIn (writeLine s j (applyUpdM sp u)) subId i := by
  obtain ⟨ln, h1, h2, h3⟩ := h
  refine ⟨if ln.id == j then applyUpdM sp u ln else ln, ?_, ?_, ?_⟩
  · rw [findScanLine_writeLine s j i (applyUpdM sp u) (fun l => rfl), h1]
    rfl
  · by_cases hj : ln.id == j <;> simp [hj, applyUpdM, h2]
  · by_cases hj : ln.id == j <;> simp [hj, applyUpdM, h3]

/-- The update step preserves the editable-line invariant: it either leaves the
store unchanged or rewrites quantity/rack/notes of one line, never its id,
submission or state. -/
theorem stepUpd_pres (sp : SalePerson) (subId' : Nat) (st : Store × UpdResults)
    (u : UpdateItem) (subId i : Nat) (h : editableLineIn st.1 subId i) :
    editableLineIn (stepUpd sp subId' st u).1 subId i := by
  obtain ⟨s, r⟩ := st
  rcases stepUpd_store_cases sp subId' s r u with hc | ⟨j, hc⟩ <;> rw [hc]
  · exact h
  · exact editableLineIn_writeLine s j subId i sp u h

/-- The `modify_submitted` update step preserves the submitted-line
invariant. -/
theorem stepUpdM_pres (sp : SalePerson) (subId' : Nat) (st : Store × UpdResults)
    (u : UpdateItem) (subId i : Nat) (h : submittedLineIn st.1 subId i) :
    submittedLineIn (stepUpdM sp subId' st u).1 subId i := by
  obtain ⟨s, r⟩ := st
  rcases stepUpdM_store_cases sp subId' s r u with hc | ⟨j, hc⟩ <;> rw [hc]
  · exact h
  · exact submittedLineIn_writeLine s j subId i sp u h

/-- A store predicate preserved by a step is preserved by the fold. -/
theorem foldl_pres {β : Type} (step : Store × UpdResults → β → Store × UpdResults)
    (P : Store → Prop) (hstep : ∀ st b, P st.1 → P (step st b).1) :
    ∀ (l : List β) (st : Store × UpdResults), P st.1 → P (l.foldl step st).1 := by
  intro l
  induction l with
  | nil => intro st h; exact h
  | cons b bs ih => intro st h; exact ih _ (hstep _ _ h)

/-- The field-less update item naming line `i`. -/
def noopItem (i : Nat) : UpdateItem :=
  { scan_line_id := some i, scanned_qty := none, rack_id := none, notes := none }

/-- A field-less update item targeting an editable line of the submission is a
no-op for `update_submission`'s update step. -/
theorem stepUpd_noop (sp : SalePerson) (subId i : Nat) (st : Store × UpdResults)
    (hP : editableLineIn st.1 subId i) (hi : i ≠ 0) :
    stepUpd sp subId st (noopItem i) = st := by
  obtain ⟨s, r⟩ := st
  obtain ⟨ln, h1, h2, h3⟩ := hP
  have hfind2 : s.scan_lines.find? (fun l => l.id == i) = some ln := h1
  rcases h3 with h3 | h3 <;>
    simp [stepUpd, noopItem, optNatTruthy, hi, hfind2, h2, h3]

/-- A field-less update item targeting a submitted line of the submission is a
no-op for `modify_submitted`'s update step. -/
theorem stepUpdM_noop (sp : SalePerson) (subId i : Nat) (st : Store × UpdResults)
    (hP : submittedLineIn st.1 subId i) (hi : i ≠ 0) :
    stepUpdM sp subId st (noopItem i) = st := by
  obtain ⟨s, r⟩ := st
  obtain ⟨ln, h1, h2, h3⟩ := hP
  have hfind2 : s.scan_lines.find? (fun l => l.id == i) = some ln := h1
  simp [stepUpdM, noopItem, hasUpdM, optNatTruthy, hi, hfind2, h2, h3]

/-- The post-gate shape of `update_submission`: once the gates pass, the
response is built from the three folds. -/
theorem updateSubmission_gate (s : Store) (kw : UpdReq) (sp : SalePerson)
    (submission : Submission) (sid : Nat)
    (hsid : kw.submission_id = some sid) (hsid0 : sid ≠ 0)
    (hauth : authenticateSalePerson s kw.api_token = .ok sp)
    (hfind : findSubmission s sid = some submission)
    (hstate : submission.state = .draft ∨ submission.state = .submitted)
    (hown : submission.sale_person_id = sp.id) :
    updateSubmission s kw
      = ((kw.scan_lines_to_remove.foldl (stepRem submission.id)
          (kw.scan_lines_to_update.foldl (stepUpd sp submission.id)
            (kw.scan_lines_to_add.foldl (stepAdd sp submission) (s, emptyResults)))).1,
         .ok submission.id
           (kw.scan_lines_to_remove.foldl (stepRem submission.id)
             (kw.scan_lines_to_update.foldl (stepUpd sp submission.id)
               (kw.scan_lines_to_add.foldl (stepAdd sp submission) (s, emptyResults)))).2) := by
  have hfind2 : s.submissions.find? (fun x => x.id == sid) = some submission := hfind
  have hstate' : ¬(¬submission.state = SubState.draft
      ∧ ¬submission.state = SubState.submitted) := by
    rcases hstate with h | h <;> simp [h]
  simp [updateSubmission, hsid, optNatTruthy, hsid0, hauth, hfind2, hstate', hown]

/-- The post-gate shape of `modify_submitted`. -/
theorem modifySubmitted_gate (s : Store) (kw : UpdReq) (sp : SalePerson)
    (submission : Submission) (sid : Nat)
    (hsid : kw.submission_id = some sid) (hsid0 : sid ≠ 0)
    (hauth : authenticateSalePerson s kw.api_token = .ok sp)
    (hfind : findSubmission s sid = some submission)
    (hstate : submission.state = .submitted)
    (hown : submission.sale_person_id = sp.id) :
    modifySubmitted s kw
      = ((kw.scan_lines_to_remove.foldl (stepRemM submission.id)
          (kw.scan_lines_to_update.foldl (stepUpdM sp submission.id)
            (kw.scan_lines_to_add.foldl (stepAddM sp submission) (s, emptyResults)))).1,
         .ok submission.id
           (kw.scan_lines_to_remove.foldl (stepRemM submission.id)
             (kw.scan_lines_to_update.foldl (stepUpdM sp submission.id)
               (kw.scan_lines_to_add.foldl (stepAddM sp submission) (s, emptyResults)))).2) := by
  have hfind2 : s.submissions.find? (fun x => x.id == sid) = some submission := hfind
  simp [modifySubmitted, hsid, optNatTruthy, hsid0, hauth, hfind2, hstate, hown]

/-- C10: an item of `scan_lines_to_update` that names an existing, editable
scan line of the target submission but supplies none of the fields
`scanned_qty`, `rack_id`, `notes` is a complete no-op: the operation's result
(store and response, hence the line and the `updated`/`errors` buckets) equals
the result of the same request without that item, and the response still
reports success — for both `update_submission` and `modify_submitted`. -/
theorem noop_update_item
    (s : Store)
    (kw : UpdReq) (sp : SalePerson) (submission : Submission) (sid : Nat)
    (hsid : kw.submission_id = some sid) (hsid0 : sid ≠ 0)
    (hauth : authenticateSalePerson s kw.api_token = .ok sp)
    (hfind : findSubmission s sid = some submission)
    (hstate : submission.state = .draft ∨ submission.state = .submitted)
    (hown : submission.sale_person_id = sp.id)
    (us vs : List UpdateItem) (i : Nat) (hi : i ≠ 0)
    (hitems : kw.scan_lines_to_update = us ++ noopItem i :: vs)
    (ln : ScanLine) (hln : findScanLine s i = some ln)
    (hlnsub : ln.submission_id = submission.id)
    (hlnst : ln.state = .draft ∨ ln.state = .submitted)
    (kwM : UpdReq) (spM : SalePerson) (subM : Submission) (sidM : Nat)
    (hsidM : kwM.submission_id = some sidM) (hsidM0 : sidM ≠ 0)
    (hauthM : authenticateSalePerson s kwM.api_token = .ok spM)
    (hfindM : findSubmission s sidM = some subM)
    (hstateM : subM.state = .submitted)
    (hownM : subM.sale_person_id = spM.id)
    (usM vsM : List UpdateItem) (iM : Nat) (hiM : iM ≠ 0)
    (hitemsM : kwM.scan_lines_to_update = usM ++ noopItem iM :: vsM)
    (lnM : ScanLine) (hlnM : findScanLine s iM = some lnM)
    (hlnsubM : lnM.submission_id = subM.id)
    (hlnstM : lnM.state = .submitted) :
    updateSubmission s kw
      = updateSubmission s { kw with scan_lines_to_update := us ++ vs }
    ∧ (updateSubmission s kw).2.success = true
    ∧ modifySubmitted s kwM
      = modifySubmitted s { kwM with scan_lines_to_update := usM ++ vsM }
    ∧ (modifySubmitted s kwM).2.success = true := by
  have e1 := updateSubmission_gate s kw sp submission sid hsid hsid0 hauth hfind
    hstate hown
  have e2 := updateSubmission_gate s { kw with scan_lines_to_update := us ++ vs }
    sp submission sid hsid hsid0 hauth hfind hstate hown
  have hP0 : editableLineIn s submission.id i := ⟨ln, hln, hlnsub, hlnst⟩
  have hPA : editableLineIn
      ((kw.scan_lines_to_add.foldl (stepAdd sp submission) (s, emptyResults))).1
        submission.id i :=
    foldl_pres (stepAdd sp submission) (fun σ => editableLineIn σ submission.id i)
      (fun st b hp => stepAdd_pres sp submission st b submission.id i hp)
      kw.scan_lines_to_add (s, emptyResults) hP0
  have hPus : editableLineIn
      ((us.foldl (stepUpd sp submission.id)
        (kw.scan_lines_to_add.foldl (stepAdd sp submission) (s, emptyResults)))).1
        submission.id i :=
    foldl_pres (stepUpd sp submission.id) (fun σ => editableLineIn σ submission.id i)
      (fun st b hp => stepUpd_pres sp submission.id st b submission.id i hp)
      us _ hPA
  have hfold : (us ++ noopItem i :: vs).foldl (stepUpd sp submission.id)
        (kw.scan_lines_to_add.foldl (stepAdd sp submission) (s, emptyResults))
      = (us ++ vs).foldl (stepUpd sp submission.id)
        (kw.scan_lines_to_add.foldl (stepAdd sp submission) (s, emptyResults)) := by
    rw [List.foldl_append, List.foldl_append, List.foldl_cons,
      stepUpd_noop sp submission.id i _ hPus hi]
  have e1M := modifySubmitted_gate s kwM spM subM sidM hsidM hsidM0 hauthM hfindM
    hstateM hownM
  have e2M := modifySubmitted_gate s { kwM with scan_lines_to_update := usM ++ vsM }
    spM subM sidM hsidM hsidM0 hauthM hfindM hstateM hownM
  have hP0M : submittedLineIn s subM.id iM := ⟨lnM, hlnM, hlnsubM, hlnstM⟩
  have hPAM : submittedLineIn
      ((kwM.scan_lines_to_add.foldl (stepAddM spM subM) (s, emptyResults))).1
        subM.id iM :=
    foldl_pres (stepAddM spM subM) (fun σ => submittedLineIn σ subM.id iM)
      (fun st b hp => stepAddM_pres spM subM st b subM.id iM hp)
      kwM.scan_lines_to_add (s, emptyResults) hP0M
  have hPusM : submittedLineIn
      ((usM.foldl (stepUpdM spM subM.id)
        (kwM.scan_lines_to_add.foldl (stepAddM spM subM) (s, emptyResults)))).1
        subM.id iM :=
    foldl_pres (stepUpdM spM subM.id) (fun σ => submittedLineIn σ subM.id iM)
      (fun st b hp => stepUpdM_pres spM subM.id st b subM.id iM hp)
      usM _ hPAM
  have hfoldM : (usM ++ noopItem iM :: vsM).foldl (stepUpdM spM subM.id)
        (kwM.scan_lines_to_add.foldl (stepAddM spM subM) (s, emptyResults))
      = (usM ++ vsM).foldl (stepUpdM spM subM.id)
        (kwM.scan_lines_to_add.foldl (stepAddM spM subM) (s, emptyResults)) := by
    rw [List.foldl_append, List.foldl_append, List.foldl_cons,
      stepUpdM_noop spM subM.id iM _ hPusM hiM]
  refine ⟨?_, ?_, ?_, ?_⟩
  · rw [e1, e2]
    dsimp only
    rw [hitems, hfold]
  · rw [e1]
    rfl
  · rw [e1M, e2M]
    dsimp only
    rw [hitemsM, hfoldM]
  · rw [e1M]
    rfl

/-- A submitted submission of agent A, editable by both mutation endpoints. -/
def subS : Submission :=
  { id := 70, name := "SUB-70", project_id := 100, project_location_id := some 10,
    sale_person_id := 1, product_id := some 1, rack_id := none,
    previous_submission_id := none, notes := "", state := .submitted,
    validation_datetime := 0 }

/-- A submitted scan line of `subS`. -/
def lineS : ScanLine :=
  { id := 71, submission_id := 70, project_id := 100, product_id := 1, lot_id := 1,
    lot_name := none, scanned_qty := 2, sale_person_id := 1, rack_id := none,
    notes := "Sale Person: Alice", state := .submitted }

/-- The example store extended with the editable submission. -/
def exStore2 : Store :=
  { exStore with submissions := [prevSub, subS], scan_lines := [prevLine, lineS] }

/-- The request carrying only the field-less item for line 71. -/
def kwNoop : UpdReq :=
  { api_token := some "tokA", submission_id := some 70, scan_lines_to_add := [],
    scan_lines_to_update := [noopItem 71], scan_lines_to_remove := [] }

/-- C10 witness: the field-less item for the submitted line 71 leaves both
operations' results identical to the item-free request, and both report
success. -/
theorem noop_update_item_witness :
    updateSubmission exStore2 kwNoop
      = updateSubmission exStore2 { kwNoop with scan_lines_to_update := [] ++ [] }
    ∧ (updateSubmission exStore2 kwNoop).2.success = true
    ∧ modifySubmitted exStore2 kwNoop
      = modifySubmitted exStore2 { kwNoop with scan_lines_to_update := [] ++ [] }
    ∧ (modifySubmitted exStore2 kwNoop).2.success = true :=
  noop_update_item exStore2
    kwNoop spA subS 70 rfl (by decide) rfl rfl (Or.inr rfl) rfl
    [] [] 71 (by decide) rfl lineS rfl rfl (Or.inr rfl)
    kwNoop spA subS 70 rfl (by decide) rfl rfl rfl rfl
    [] [] 71 (by decide) rfl lineS rfl rfl rfl

end InventoryApp
